import Mathlib

/-!
# terraform-provider-kong: the reconciliation engine

A shallow embedding of `kong/utils.go`, `kong/provider.go`,
`kong/resource_kong_service.go`, `kong/resource_kong_route.go` and
`kong/resource_kong_plugin.go`.

Conventions of the embedding.

* A Go pointer or nil-able slice is an `Option`; dereferencing `none` is the
  run-time panic of Go and is an explicit outcome (`Outcome.panic`,
  `Attempt.panic`).
* A Go `error` is `Option String`: `none` is `nil`, `some m` is an error
  whose `Error()` text is `m`.
* The Kong admin API (package `gokong`) is an external collaborator.  Its
  clients are records of functions over an abstract remote state `σ`; every
  call made through a client is appended to the trace `World.calls`.
* `schema.ResourceData` is the tracked identifier together with the list of
  attributes that have been written.
* `d.Set` stores the value it is given; the exception is the write of a
  slice of `gokong.IpPort` to the `source` and `destination` sets of a
  route, which the SDK rejects and whose error the code drops.
* `resource.Retry` of the Terraform SDK is a loop over an attempt budget
  that stands for the timeout.
* `retry` of `utils.go` loops without a bound of its own; it runs on fuel,
  and its counter is a 64-bit Go `int`.
* The `read…FromResource` helpers, the `%v` rendering of package `fmt` and
  the renderings of package `encoding/json` are parameters of the
  functions that use them.
-/

namespace Kong

/-! ## Go strings -/

/-- Go's `strings.Contains(s, substr)`. -/
def strContains (s substr : String) : Bool :=
  decide (substr.toList <:+: s.toList)

/-! ## `utils.go` -/

/-- The keys Kong computes itself inside a plugin configuration. -/
def computedPluginProperties : List String :=
  ["created_at", "id", "consumer", "service", "route"]

/-- Linear membership scan of `utils.go`. -/
def contains : List String → String → Bool
  | [], _ => false
  | a :: s, e => if a = e then true else contains s e

/-- The arithmetic of Go's `int` on a 64-bit platform: the result of an
operation wraps around into the range from `-2^63` to `2^63 - 1`. -/
def wrapInt (n : Int) : Int :=
  (n + 9223372036854775808) % 18446744073709551616 - 9223372036854775808

/-- The largest value of Go's `int` on a 64-bit platform. -/
def maxInt : Int := 9223372036854775807

/-- The `for` loop of `retry`, from the value `attempt` of its counter.  The
function `f` acts on a state `σ`; `calls` counts its invocations.  The loop
has no bound of its own, so it runs on `fuel`: `none` means that the loop
has not returned within `fuel` invocations of `f`.  The sleep between two
invocations is not represented. -/
def retryFrom {σ : Type} (retries : Int) (f : σ → Option String × σ) :
    Nat → Int → σ → Nat → Option (Option String × σ × Nat)
  | 0, _, _, _ => none
  | fuel + 1, attempt, s, calls =>
    match f s with
    | (some err, s1) =>
      if attempt > retries then some (some err, s1, calls + 1)
      else retryFrom retries f fuel (wrapInt (attempt + 1)) s1 (calls + 1)
    | (none, s1) => some (none, s1, calls + 1)

/-- `retry(retries, f)`: the error returned, the state `f` leaves, and the
number of invocations of `f`. -/
def retry {σ : Type} (fuel : Nat) (retries : Int) (f : σ → Option String × σ) (s : σ) :
    Option (Option String × σ × Nat) :=
  retryFrom retries f fuel 1 s 0

/-- `retryOnce(f)`. -/
def retryOnce {σ : Type} (fuel : Nat) (f : σ → Option String × σ) (s : σ) :
    Option (Option String × σ × Nat) :=
  retry fuel 1 f s

/-- The state after `n` invocations of `f`. -/
def stateAfter {σ : Type} (f : σ → Option String × σ) : Nat → σ → σ
  | 0, s => s
  | n + 1, s => stateAfter f n (f s).2

/-! ## Go maps with string keys -/

/-- The assignment `m[key] = v` on a map held as the list of its entries:
overwrite the binding of `key`, or add one. -/
def mapAssign {α : Type} (key : String) (v : α) : List (String × α) → List (String × α)
  | [] => [(key, v)]
  | (k, w) :: rest => if k = key then (key, v) :: rest else (k, w) :: mapAssign key v rest

/-- The keys of a map, in the order of its entries. -/
def mapKeys {α : Type} (m : List (String × α)) : List String := m.map Prod.fst

/-! ## `provider.go` -/

/-- The provider configuration, without the admin client (which is passed
separately).  `retryTimeout` is the only quantity of real time in the
engine: it is kept as the number of further attempts for which the timeout
leaves room after the first one. -/
structure config where
  strictPlugins : Bool
  strictConsumerPlugins : Bool
  upsertResources : Bool
  retryOnError : Bool
  retryTimeout : Nat
  deriving DecidableEq, Repr

/-! ## `schema.ResourceData` -/

/-- An address/port pair of a route (`gokong.IpPort`). -/
structure IpPort where
  Ip : Option String
  Port : Option Int
  deriving DecidableEq, Repr

/-- A value stored under an attribute of the resource data. -/
inductive Value where
  | str (s : String)
  | int (n : Int)
  | bool (b : Bool)
  | strs (l : List String)
  | ipPorts (l : List IpPort)
  deriving DecidableEq, Repr

/-- The zero value of the attribute's type, which `GetOk` reports as unset. -/
def Value.isZero : Value → Bool
  | .str s => decide (s = "")
  | .int n => decide (n = 0)
  | .bool b => !b
  | .strs l => l.isEmpty
  | .ipPorts l => l.isEmpty

/-- The resource data handed to Create/Read/Update/Delete: the tracked
identifier and the attributes. -/
structure ResourceData where
  id : String
  attrs : List (String × Value)
  deriving DecidableEq, Repr


namespace ResourceData

/-- `d.Id()`. -/
def Id (d : ResourceData) : String := d.id

/-- `d.SetId(id)`. -/
def SetId (d : ResourceData) (id : String) : ResourceData := { d with id := id }

/-- `d.Set(key, value)`. -/
def Set (d : ResourceData) (key : String) (v : Value) : ResourceData :=
  { d with attrs := mapAssign key v d.attrs }

/-- `d.Get(key)` without the schema default: the stored value, if any. -/
def Get (d : ResourceData) (key : String) : Option Value :=
  (d.attrs.find? (fun p => decide (p.1 = key))).map Prod.snd

/-- `d.GetOk(key)`: the value, and `ok` only when the key has been set to a
value that is not the zero value of its type. -/
def GetOk (d : ResourceData) (key : String) : Option Value :=
  (d.Get key).filter (fun v => !v.isZero)

end ResourceData

/-! ## The remote API and the trace of calls -/

/-- The resource kinds of this development. -/
inductive Kind where
  | service
  | route
  | plugin
  deriving DecidableEq, Repr

/-- A call made through a client of the admin API. -/
inductive Call where
  | Create (k : Kind)
  | GetByName (k : Kind) (name : String)
  | List (k : Kind)
  | GetById (k : Kind) (id : String)
  | UpdateById (k : Kind) (id : String)
  | DeleteById (k : Kind) (id : String)
  deriving DecidableEq, Repr

/-- The state of the remote system together with the calls issued so far,
oldest first. -/
structure World (σ : Type) where
  remote : σ
  calls : List Call

/-- Record a call and install the remote state it leaves. -/
def World.step {σ : Type} (w : World σ) (c : Call) (remote : σ) : World σ :=
  { remote := remote, calls := w.calls ++ [c] }

/-- Is the call a `Create`? -/
def Call.isCreate : Call → Bool
  | .Create _ => true
  | _ => false

/-- What a Go function of type `func(...) error` does: return an error value
(possibly nil) or panic. -/
inductive Outcome where
  | ret (err : Option String)
  | panic
  deriving DecidableEq, Repr

/-- The result of running an operation: outcome, resource data and world. -/
structure Exec (σ : Type) where
  out : Outcome
  d : ResourceData
  w : World σ

/-! ## `resource.Retry` -/

/-- The `resource.RetryError` a retry function hands to the loop. -/
structure RetryError where
  Err : String
  Retryable : Bool
  deriving DecidableEq, Repr

/-- One run of the function passed to `resource.Retry`.  `done id` is a nil
return, with the identifier the closure stored in its captured variable. -/
inductive Attempt where
  | done (id : String)
  | fail (e : RetryError)
  | panic
  deriving DecidableEq, Repr

/-- Modelled from the spec: `resource.Retry` of the Terraform SDK (a library,
not in the sources), following the Retry Policy of sections 2 and 4.1: run
the function; a nil return ends the loop with success; an error that is not
retryable is surfaced immediately; a retryable error is retried until the
timeout elapses, and then the last error is returned.  The timeout is the
number `budget` of further attempts it leaves room for. -/
def Retry {σ : Type} (f : World σ → Attempt × World σ) : Nat → World σ → Attempt × World σ
  | 0, w => f w
  | budget + 1, w =>
    match f w with
    | (.fail e, w1) => if e.Retryable then Retry f budget w1 else (.fail e, w1)
    | r => r

/-! ## Helper readers of the repository that are not among the sources -/

/-- The `read…FromResource` helpers used by the request builders.  Their
file is not part of the sources at hand, so the builders take them as a
parameter. -/
structure Readers where
  readStringFromResource : ResourceData → String → String
  readStringPtrFromResource : ResourceData → String → Option String
  readIntPtrFromResource : ResourceData → String → Option Int
  readBoolPtrFromResource : ResourceData → String → Option Bool
  readIdPtrFromResource : ResourceData → String → Option String
  readStringArrayPtrFromResource : ResourceData → String → Option (List (Option String))
  readIpPortArrayFromResource : ResourceData → String → Option (List IpPort)

/-- Modelled from the spec: `readIntPtrFromResource`, a helper of this
repository whose file is not among the sources.  Section 4.6 and the
"unset vs. zero" property of section 8: an integer attribute the caller
gave, zero included, is emitted in the request with that value; one
without a value is omitted. -/
def readIntPtrFromResource (d : ResourceData) (key : String) : Option Int :=
  match d.Get key with
  | some (.int n) => some n
  | _ => none

/-- `gokong.IdToString`: a nil reference reads as the empty string. -/
def IdToString : Option String → String
  | none => ""
  | some v => v

/-- `gokong.StringValueSlice`: a nil element reads as the empty string. -/
def StringValueSlice (src : List (Option String)) : List String :=
  src.map (fun s => match s with
    | some v => v
    | none => "")

/-! ## `resource_kong_service.go` -/

/-- `gokong.ServiceRequest`. -/
structure ServiceRequest where
  Name : Option String
  Protocol : Option String
  Host : Option String
  Port : Option Int
  Path : Option String
  Retries : Option Int
  ConnectTimeout : Option Int
  WriteTimeout : Option Int
  ReadTimeout : Option Int
  deriving DecidableEq, Repr

/-- `gokong.Service`, with the fields the provider reads. -/
structure Service where
  Id : Option String
  Name : Option String
  Protocol : Option String
  Host : Option String
  Port : Option Int
  Path : Option String
  Retries : Option Int
  ConnectTimeout : Option Int
  WriteTimeout : Option Int
  ReadTimeout : Option Int
  deriving DecidableEq, Repr

/-- `gokong.ServiceClient`: each method maps the remote state to the pair
`(record, error)` it returns and the remote state it leaves. -/
structure ServiceClient (σ : Type) where
  Create : ServiceRequest → σ → (Option Service × Option String) × σ
  GetServiceByName : String → σ → (Option Service × Option String) × σ
  GetServiceById : String → σ → (Option Service × Option String) × σ
  UpdateServiceById : String → ServiceRequest → σ → (Option Service × Option String) × σ
  DeleteServiceById : String → σ → Option String × σ

/-- The request builder of the service resource. -/
def createKongServiceRequestFromResourceData (h : Readers) (d : ResourceData) : ServiceRequest :=
  { Name := h.readStringPtrFromResource d "name"
    Protocol := h.readStringPtrFromResource d "protocol"
    Host := h.readStringPtrFromResource d "host"
    Port := h.readIntPtrFromResource d "port"
    Path := h.readStringPtrFromResource d "path"
    Retries := h.readIntPtrFromResource d "retries"
    ConnectTimeout := h.readIntPtrFromResource d "connect_timeout"
    WriteTimeout := h.readIntPtrFromResource d "write_timeout"
    ReadTimeout := h.readIntPtrFromResource d "read_timeout" }

/-- `d.Set(key, p)` guarded by `p != nil`, for a string field. -/
def setStrIfPresent (d : ResourceData) (key : String) : Option String → ResourceData
  | some v => d.Set key (.str v)
  | none => d

/-- `d.Set(key, p)` guarded by `p != nil`, for an integer field. -/
def setIntIfPresent (d : ResourceData) (key : String) : Option Int → ResourceData
  | some v => d.Set key (.int v)
  | none => d

/-- `d.Set(key, p)` guarded by `p != nil`, for a boolean field. -/
def setBoolIfPresent (d : ResourceData) (key : String) : Option Bool → ResourceData
  | some v => d.Set key (.bool v)
  | none => d

/-- The attribute writes of `resourceKongServiceRead` for a service found. -/
def serviceToResourceData (d : ResourceData) (service : Service) : ResourceData :=
  let d := setStrIfPresent d "name" service.Name
  let d := setStrIfPresent d "protocol" service.Protocol
  let d := setStrIfPresent d "host" service.Host
  let d := setIntIfPresent d "port" service.Port
  let d := setStrIfPresent d "path" service.Path
  let d := setIntIfPresent d "retries" service.Retries
  let d := setIntIfPresent d "connect_timeout" service.ConnectTimeout
  let d := setIntIfPresent d "write_timeout" service.WriteTimeout
  setIntIfPresent d "read_timeout" service.ReadTimeout

/-- `resourceKongServiceRead`. -/
def resourceKongServiceRead {σ : Type} (c : ServiceClient σ) (d : ResourceData)
    (w : World σ) : Exec σ :=
  match c.GetServiceById d.Id w.remote with
  | ((_, some err), r) =>
    ⟨.ret (some ("could not find kong service: " ++ err)), d, w.step (.GetById .service d.Id) r⟩
  | ((none, none), r) =>
    ⟨.ret none, d.SetId "", w.step (.GetById .service d.Id) r⟩
  | ((some service, none), r) =>
    ⟨.ret none, serviceToResourceData d service, w.step (.GetById .service d.Id) r⟩

/-- The function `resourceKongServiceCreate` passes to `resource.Retry`.
`fmtV` is the `%v` rendering of the request by package `fmt`. -/
def serviceCreateAttempt {σ : Type} (c : ServiceClient σ) (cfg : config)
    (fmtV : ServiceRequest → String) (serviceRequest : ServiceRequest)
    (w : World σ) : Attempt × World σ :=
  match serviceRequest.Name with
  | none => (.panic, w)
  | some name =>
    match c.Create serviceRequest w.remote with
    | ((_, some err), r) =>
      let w1 := w.step (.Create .service) r
      if cfg.upsertResources && strContains err "unique constraint violation" then
        match c.GetServiceByName name w1.remote with
        | ((_, some err2), r2) =>
          (.fail ⟨"could not read existing Kong service " ++ name ++ ": " ++ err2,
                  cfg.retryOnError⟩, w1.step (.GetByName .service name) r2)
        | ((none, none), r2) => (.panic, w1.step (.GetByName .service name) r2)
        | ((some dbService, none), r2) =>
          match dbService.Id with
          | none => (.panic, w1.step (.GetByName .service name) r2)
          | some id => (.done id, w1.step (.GetByName .service name) r2)
      else
        (.fail ⟨"failed to create kong service: " ++ fmtV serviceRequest ++ " error: " ++ err,
                cfg.retryOnError⟩, w1)
    | ((none, none), r) => (.panic, w.step (.Create .service) r)
    | ((some service, none), r) =>
      match service.Id with
      | none => (.panic, w.step (.Create .service) r)
      | some id => (.done id, w.step (.Create .service) r)

/-- `resourceKongServiceCreate`. -/
def resourceKongServiceCreate {σ : Type} (h : Readers) (c : ServiceClient σ) (cfg : config)
    (fmtV : ServiceRequest → String) (d : ResourceData) (w : World σ) : Exec σ :=
  let serviceRequest := createKongServiceRequestFromResourceData h d
  match Retry (serviceCreateAttempt c cfg fmtV serviceRequest) cfg.retryTimeout w with
  | (.fail e, w1) => ⟨.ret (some e.Err), d, w1⟩
  | (.panic, w1) => ⟨.panic, d, w1⟩
  | (.done serviceID, w1) => resourceKongServiceRead c (d.SetId serviceID) w1

/-- `resourceKongServiceUpdate`. -/
def resourceKongServiceUpdate {σ : Type} (h : Readers) (c : ServiceClient σ)
    (d : ResourceData) (w : World σ) : Exec σ :=
  let serviceRequest := createKongServiceRequestFromResourceData h d
  match c.UpdateServiceById d.Id serviceRequest w.remote with
  | ((_, some err), r) =>
    ⟨.ret (some ("error updating kong service: " ++ err)), d, w.step (.UpdateById .service d.Id) r⟩
  | ((_, none), r) => resourceKongServiceRead c d (w.step (.UpdateById .service d.Id) r)

/-- `resourceKongServiceDelete`. -/
def resourceKongServiceDelete {σ : Type} (c : ServiceClient σ) (d : ResourceData)
    (w : World σ) : Exec σ :=
  match c.DeleteServiceById d.Id w.remote with
  | (some err, r) =>
    ⟨.ret (some ("could not delete kong service: " ++ err)), d, w.step (.DeleteById .service d.Id) r⟩
  | (none, r) => ⟨.ret none, d, w.step (.DeleteById .service d.Id) r⟩

/-! ## `resource_kong_route.go` -/

/-- `gokong.RouteRequest`. -/
structure RouteRequest where
  Name : Option String
  Protocols : Option (List (Option String))
  Methods : Option (List (Option String))
  Hosts : Option (List (Option String))
  Paths : Option (List (Option String))
  StripPath : Option Bool
  Sources : Option (List IpPort)
  Destinations : Option (List IpPort)
  PreserveHost : Option Bool
  RegexPriority : Option Int
  Snis : Option (List (Option String))
  Service : Option String
  deriving DecidableEq, Repr

/-- `gokong.Route`, with the fields the provider reads. -/
structure Route where
  Id : Option String
  Name : Option String
  Protocols : Option (List (Option String))
  Methods : Option (List (Option String))
  Hosts : Option (List (Option String))
  Paths : Option (List (Option String))
  StripPath : Option Bool
  Sources : Option (List IpPort)
  Destinations : Option (List IpPort)
  PreserveHost : Option Bool
  RegexPriority : Option Int
  Snis : Option (List (Option String))
  Service : Option String
  deriving DecidableEq, Repr

/-- `gokong.RouteClient`. -/
structure RouteClient (σ : Type) where
  Create : RouteRequest → σ → (Option Route × Option String) × σ
  GetByName : String → σ → (Option Route × Option String) × σ
  GetById : String → σ → (Option Route × Option String) × σ
  UpdateById : String → RouteRequest → σ → (Option Route × Option String) × σ
  DeleteById : String → σ → Option String × σ

/-- The request builder of the route resource. -/
def createKongRouteRequestFromResourceData (h : Readers) (d : ResourceData) : RouteRequest :=
  { Name := h.readStringPtrFromResource d "name"
    Protocols := h.readStringArrayPtrFromResource d "protocols"
    Methods := h.readStringArrayPtrFromResource d "methods"
    Hosts := h.readStringArrayPtrFromResource d "hosts"
    Paths := h.readStringArrayPtrFromResource d "paths"
    StripPath := h.readBoolPtrFromResource d "strip_path"
    Sources := h.readIpPortArrayFromResource d "source"
    Destinations := h.readIpPortArrayFromResource d "destination"
    PreserveHost := h.readBoolPtrFromResource d "preserve_host"
    RegexPriority := h.readIntPtrFromResource d "regex_priority"
    Snis := h.readStringArrayPtrFromResource d "snis"
    Service := h.readIdPtrFromResource d "service_id" }

/-- `d.Set(key, gokong.StringValueSlice(p))` guarded by `p != nil`. -/
def setStrsIfPresent (d : ResourceData) (key : String) :
    Option (List (Option String)) → ResourceData
  | some v => d.Set key (.strs (StringValueSlice v))
  | none => d

/-- `d.Set(key, ports)` for a `[]*gokong.IpPort`, with the error it returns
dropped, as `resourceKongRouteRead` calls it on the attributes `source` and
`destination`.  These attributes are sets of sub-resources, whose elements
the SDK's writer takes as maps keyed by the names of the schema: it rejects
a slice that holds a struct, `d.Set` returns the error and writes nothing.
Only the slice without elements is accepted, and written as the empty set. -/
def setIpPortsDroppingError (d : ResourceData) (key : String) :
    List IpPort → ResourceData
  | [] => d.Set key (.ipPorts [])
  | _ :: _ => d

/-- The attribute writes of `resourceKongRouteRead` for a route found.  Both
`source` and `destination` are handed `route.Sources`, the second one under
the guard `route.Destinations != nil`; the errors of these two `d.Set` are
not looked at. -/
def routeToResourceData (d : ResourceData) (route : Route) : ResourceData :=
  let d := setStrIfPresent d "name" route.Name
  let d := setStrsIfPresent d "protocols" route.Protocols
  let d := setStrsIfPresent d "methods" route.Methods
  let d := setStrsIfPresent d "hosts" route.Hosts
  let d := setStrsIfPresent d "paths" route.Paths
  let d := setBoolIfPresent d "strip_path" route.StripPath
  let d := match route.Sources with
    | some srcs => setIpPortsDroppingError d "source" srcs
    | none => d
  let d := match route.Destinations with
    | some _ => setIpPortsDroppingError d "destination" (route.Sources.getD [])
    | none => d
  let d := setBoolIfPresent d "preserve_host" route.PreserveHost
  let d := setIntIfPresent d "regex_priority" route.RegexPriority
  let d := setStrsIfPresent d "snis" route.Snis
  setStrIfPresent d "service_id" route.Service

/-- `resourceKongRouteRead`. -/
def resourceKongRouteRead {σ : Type} (c : RouteClient σ) (d : ResourceData)
    (w : World σ) : Exec σ :=
  match c.GetById d.Id w.remote with
  | ((_, some err), r) =>
    ⟨.ret (some ("could not find kong route: " ++ err)), d, w.step (.GetById .route d.Id) r⟩
  | ((none, none), r) =>
    ⟨.ret none, d.SetId "", w.step (.GetById .route d.Id) r⟩
  | ((some route, none), r) =>
    ⟨.ret none, routeToResourceData d route, w.step (.GetById .route d.Id) r⟩

/-- The function `resourceKongRouteCreate` passes to `resource.Retry`.  On
the adoption path the identifier is read from `route`, the result of the
failed `Create`, after `dbRoute` has been looked up and logged. -/
def routeCreateAttempt {σ : Type} (c : RouteClient σ) (cfg : config)
    (fmtV : RouteRequest → String) (routeRequest : RouteRequest)
    (w : World σ) : Attempt × World σ :=
  match c.Create routeRequest w.remote with
  | ((route, some err), r) =>
    let w1 := w.step (.Create .route) r
    if cfg.upsertResources && strContains err "unique constraint violation" then
      match routeRequest.Name with
      | none => (.panic, w1)
      | some name =>
        match c.GetByName name w1.remote with
        | ((_, some err2), r2) =>
          (.fail ⟨"could not read existing Kong service " ++ name ++ ": " ++ err2,
                  cfg.retryOnError⟩, w1.step (.GetByName .route name) r2)
        | ((none, none), r2) => (.panic, w1.step (.GetByName .route name) r2)
        | ((some dbRoute, none), r2) =>
          match dbRoute.Id with
          | none => (.panic, w1.step (.GetByName .route name) r2)
          | some _ =>
            match route with
            | none => (.panic, w1.step (.GetByName .route name) r2)
            | some rt =>
              match rt.Id with
              | none => (.panic, w1.step (.GetByName .route name) r2)
              | some id => (.done id, w1.step (.GetByName .route name) r2)
    else
      (.fail ⟨"failed to create kong route: " ++ fmtV routeRequest ++ " error: " ++ err,
              cfg.retryOnError⟩, w1)
  | ((none, none), r) => (.panic, w.step (.Create .route) r)
  | ((some route, none), r) =>
    match route.Id with
    | none => (.panic, w.step (.Create .route) r)
    | some id => (.done id, w.step (.Create .route) r)

/-- `resourceKongRouteCreate`. -/
def resourceKongRouteCreate {σ : Type} (h : Readers) (c : RouteClient σ) (cfg : config)
    (fmtV : RouteRequest → String) (d : ResourceData) (w : World σ) : Exec σ :=
  let routeRequest := createKongRouteRequestFromResourceData h d
  match Retry (routeCreateAttempt c cfg fmtV routeRequest) cfg.retryTimeout w with
  | (.fail e, w1) => ⟨.ret (some e.Err), d, w1⟩
  | (.panic, w1) => ⟨.panic, d, w1⟩
  | (.done routeID, w1) => resourceKongRouteRead c (d.SetId routeID) w1

/-- `resourceKongRouteUpdate`. -/
def resourceKongRouteUpdate {σ : Type} (h : Readers) (c : RouteClient σ)
    (d : ResourceData) (w : World σ) : Exec σ :=
  let routeRequest := createKongRouteRequestFromResourceData h d
  match c.UpdateById d.Id routeRequest w.remote with
  | ((_, some err), r) =>
    ⟨.ret (some ("error updating kong route: " ++ err)), d, w.step (.UpdateById .route d.Id) r⟩
  | ((_, none), r) => resourceKongRouteRead c d (w.step (.UpdateById .route d.Id) r)

/-- `resourceKongRouteDelete`. -/
def resourceKongRouteDelete {σ : Type} (c : RouteClient σ) (d : ResourceData)
    (w : World σ) : Exec σ :=
  match c.DeleteById d.Id w.remote with
  | (some err, r) =>
    ⟨.ret (some ("could not delete kong route: " ++ err)), d, w.step (.DeleteById .route d.Id) r⟩
  | (none, r) => ⟨.ret none, d, w.step (.DeleteById .route d.Id) r⟩

/-! ## `resource_kong_plugin.go` -/

/-- Package `encoding/json`, as far as the plugin resource uses it, for
configuration values of type `V`: the JSON text of a string, the JSON text
of a value, and `json.Unmarshal` of a text into a `map[string]interface{}`
(an error text on malformed input). -/
structure JsonCodec (V : Type) where
  quote : String → String
  value : V → String
  unmarshal : String → Except String (List (String × V))

/-- The order in which `json.Marshal` emits the keys of a map. -/
def keyLE {V : Type} (a b : String × V) : Prop := a.1 ≤ b.1

instance {V : Type} : DecidableRel (keyLE (V := V)) :=
  fun a b => inferInstanceAs (Decidable (a.1 ≤ b.1))

instance {V : Type} : IsTotal (String × V) keyLE := ⟨fun a b => le_total a.1 b.1⟩

instance {V : Type} : IsTrans (String × V) keyLE := ⟨fun _ _ _ hab hbc => le_trans hab hbc⟩

/-- `json.Marshal` of a `map[string]interface{}`: the members sorted by key,
each rendered as `key:value`, separated by commas, in braces.  The values
come from JSON, so marshalling them does not fail. -/
def jsonMarshalMap {V : Type} (j : JsonCodec V) (m : List (String × V)) : String :=
  "\x7b" ++ ",".intercalate
    ((m.insertionSort keyLE).map (fun p => j.quote p.1 ++ ":" ++ j.value p.2)) ++ "\x7d"

/-- The entries `stripComputed` keeps. -/
def keptEntry {V : Type} (p : String × V) : Bool := !contains computedPluginProperties p.1

/-- The loop of `pluginConfigJsonToString`: copy into `marshalledData` every
entry whose key is not a computed property. -/
def stripComputed {V : Type} : List (String × V) → List (String × V) → List (String × V)
  | marshalledData, [] => marshalledData
  | marshalledData, (key, val) :: data =>
    if !contains computedPluginProperties key then
      stripComputed (mapAssign key val marshalledData) data
    else
      stripComputed marshalledData data

/-- `pluginConfigJsonToString`. -/
def pluginConfigJsonToString {V : Type} (j : JsonCodec V) (data : List (String × V)) : String :=
  jsonMarshalMap j (stripComputed [] data)

/-- `gokong.PluginRequest`. -/
structure PluginRequest (V : Type) where
  Name : String
  ConsumerId : Option String
  ServiceId : Option String
  RouteId : Option String
  Config : List (String × V)
  Enabled : Option Bool

/-- `gokong.Plugin`. -/
structure Plugin (V : Type) where
  Id : String
  Name : String
  ServiceId : Option String
  RouteId : Option String
  ConsumerId : Option String
  Config : List (String × V)
  Enabled : Bool

/-- `gokong.PluginClient`.  `List` takes the page size of the query and
returns all plugins. -/
structure PluginClient (σ V : Type) where
  Create : PluginRequest V → σ → (Option (Plugin V) × Option String) × σ
  List : Nat → σ → (List (Plugin V) × Option String) × σ
  GetById : String → σ → (Option (Plugin V) × Option String) × σ
  UpdateById : String → PluginRequest V → σ → (Option (Plugin V) × Option String) × σ
  DeleteById : String → σ → Option String × σ

/-- The condition of the scan in `findPlugin`. -/
def pluginMatches {V : Type} (name : String) (consumerId routeId serviceId : Option String)
    (p : Plugin V) : Bool :=
  decide (p.Name = name) &&
  decide (IdToString p.ConsumerId = IdToString consumerId) &&
  decide (IdToString p.RouteId = IdToString routeId) &&
  decide (IdToString p.ServiceId = IdToString serviceId)

/-- The `for` loop of `findPlugin` over the plugins listed. -/
def scanPlugins {V : Type} (name : String) (consumerId routeId serviceId : Option String) :
    List (Plugin V) → Option (Plugin V)
  | [] => none
  | p :: rest =>
    if pluginMatches name consumerId routeId serviceId p then some p
    else scanPlugins name consumerId routeId serviceId rest

/-- `findPlugin`. -/
def findPlugin {σ V : Type} (c : PluginClient σ V) (name : String)
    (consumerId routeId serviceId : Option String) (w : World σ) :
    (Option (Plugin V) × Option String) × World σ :=
  match c.List 1000 w.remote with
  | ((_, some err), r) =>
    ((none, some ("could not read existing plugins: " ++ err)), w.step (.List .plugin) r)
  | ((dbPlugins, none), r) =>
    match scanPlugins name consumerId routeId serviceId dbPlugins with
    | some p => ((some p, none), w.step (.List .plugin) r)
    | none => ((none, some ("could not find plugin with name " ++ name)), w.step (.List .plugin) r)

/-- The request builder of the plugin resource: `none` is a failed type
assertion on `config_json`, otherwise the request and the error returned. -/
def createKongPluginRequestFromResourceData {V : Type} (h : Readers) (j : JsonCodec V)
    (d : ResourceData) : Option (PluginRequest V × Option String) :=
  let pluginRequest : PluginRequest V :=
    { Name := h.readStringFromResource d "name"
      ConsumerId := h.readIdPtrFromResource d "consumer_id"
      ServiceId := h.readIdPtrFromResource d "service_id"
      RouteId := h.readIdPtrFromResource d "route_id"
      Config := []
      Enabled := h.readBoolPtrFromResource d "enabled" }
  match d.GetOk "config_json" with
  | none => some (pluginRequest, none)
  | some (.str data) =>
    match j.unmarshal data with
    | .error err => some (pluginRequest, some ("failed to unmarshal config_json, err: " ++ err))
    | .ok configJson => some ({ pluginRequest with Config := configJson }, none)
  | some _ => none

/-- The two branches of `setConfig` in `resourceKongPluginRead`. -/
def setConfig (d : ResourceData) (upstreamJson : String) (strict : Bool) : ResourceData :=
  if strict then d.Set "config_json" (.str upstreamJson)
  else d.Set "computed_config" (.str upstreamJson)

/-- The first five attribute writes of `resourceKongPluginRead` for a plugin
found.  A nil id reference is stored as the empty string. -/
def setPluginFields {V : Type} (d : ResourceData) (plugin : Plugin V) : ResourceData :=
  let d := d.Set "name" (.str plugin.Name)
  let d := d.Set "service_id" (.str (IdToString plugin.ServiceId))
  let d := d.Set "route_id" (.str (IdToString plugin.RouteId))
  let d := d.Set "consumer_id" (.str (IdToString plugin.ConsumerId))
  d.Set "enabled" (.bool plugin.Enabled)

/-- The attribute writes of `resourceKongPluginRead` for a plugin found;
`none` is a failed type assertion on `strict_match`. -/
def pluginToResourceData {V : Type} (j : JsonCodec V) (cfg : config) (d : ResourceData)
    (plugin : Plugin V) : Option ResourceData :=
  let d := setPluginFields d plugin
  let upstreamJson := pluginConfigJsonToString j plugin.Config
  match d.GetOk "strict_match" with
  | some (.bool value) => some (setConfig d upstreamJson value)
  | some _ => none
  | none => some (setConfig d upstreamJson cfg.strictPlugins)

/-- `resourceKongPluginRead`. -/
def resourceKongPluginRead {σ V : Type} (j : JsonCodec V) (c : PluginClient σ V) (cfg : config)
    (d : ResourceData) (w : World σ) : Exec σ :=
  match c.GetById d.Id w.remote with
  | ((_, some err), r) =>
    ⟨.ret (some ("could not find kong plugin: " ++ err)), d, w.step (.GetById .plugin d.Id) r⟩
  | ((none, none), r) =>
    ⟨.ret none, d.SetId "", w.step (.GetById .plugin d.Id) r⟩
  | ((some plugin, none), r) =>
    match pluginToResourceData j cfg d plugin with
    | some d1 => ⟨.ret none, d1, w.step (.GetById .plugin d.Id) r⟩
    | none => ⟨.panic, d, w.step (.GetById .plugin d.Id) r⟩

/-- The function `resourceKongPluginCreate` passes to `resource.Retry`. -/
def pluginCreateAttempt {σ V : Type} (c : PluginClient σ V) (cfg : config)
    (fmtV : PluginRequest V → String) (pluginRequest : PluginRequest V)
    (w : World σ) : Attempt × World σ :=
  match c.Create pluginRequest w.remote with
  | ((_, some err), r) =>
    let w1 := w.step (.Create .plugin) r
    if cfg.upsertResources && strContains err "unique constraint violation" then
      match findPlugin c pluginRequest.Name pluginRequest.ConsumerId pluginRequest.RouteId
          pluginRequest.ServiceId w1 with
      | ((_, some err2), w2) => (.fail ⟨err2, cfg.retryOnError⟩, w2)
      | ((none, none), w2) => (.panic, w2)
      | ((some dbPlugin, none), w2) => (.done dbPlugin.Id, w2)
    else
      (.fail ⟨"failed to create kong plugin: " ++ fmtV pluginRequest ++ " error: " ++ err,
              cfg.retryOnError⟩, w1)
  | ((none, none), r) => (.panic, w.step (.Create .plugin) r)
  | ((some plugin, none), r) => (.done plugin.Id, w.step (.Create .plugin) r)

/-- `resourceKongPluginCreate`. -/
def resourceKongPluginCreate {σ V : Type} (h : Readers) (j : JsonCodec V)
    (c : PluginClient σ V) (cfg : config) (fmtV : PluginRequest V → String)
    (d : ResourceData) (w : World σ) : Exec σ :=
  match createKongPluginRequestFromResourceData h j d with
  | none => ⟨.panic, d, w⟩
  | some (_, some err) => ⟨.ret (some err), d, w⟩
  | some (pluginRequest, none) =>
    match Retry (pluginCreateAttempt c cfg fmtV pluginRequest) cfg.retryTimeout w with
    | (.fail e, w1) => ⟨.ret (some e.Err), d, w1⟩
    | (.panic, w1) => ⟨.panic, d, w1⟩
    | (.done pluginID, w1) => resourceKongPluginRead j c cfg (d.SetId pluginID) w1

/-- `resourceKongPluginUpdate`. -/
def resourceKongPluginUpdate {σ V : Type} (h : Readers) (j : JsonCodec V)
    (c : PluginClient σ V) (cfg : config) (d : ResourceData) (w : World σ) : Exec σ :=
  match createKongPluginRequestFromResourceData h j d with
  | none => ⟨.panic, d, w⟩
  | some (_, some err) => ⟨.ret (some err), d, w⟩
  | some (pluginRequest, none) =>
    match c.UpdateById d.Id pluginRequest w.remote with
    | ((_, some err), r) =>
      ⟨.ret (some ("error updating kong plugin: " ++ err)), d, w.step (.UpdateById .plugin d.Id) r⟩
    | ((_, none), r) => resourceKongPluginRead j c cfg d (w.step (.UpdateById .plugin d.Id) r)

/-- `resourceKongPluginDelete`. -/
def resourceKongPluginDelete {σ V : Type} (c : PluginClient σ V) (d : ResourceData)
    (w : World σ) : Exec σ :=
  match c.DeleteById d.Id w.remote with
  | (some err, r) =>
    ⟨.ret (some ("could not delete kong plugin: " ++ err)), d, w.step (.DeleteById .plugin d.Id) r⟩
  | (none, r) => ⟨.ret none, d, w.step (.DeleteById .plugin d.Id) r⟩

/-! ## Scripted clients

Clients over the trivial remote state that answer every call with a fixed
response.  They serve to run the operations on concrete inputs. -/

/-- A service client with fixed responses. -/
def scriptedServices (create byName byId update : Option Service × Option String)
    (delete : Option String) : ServiceClient Unit :=
  { Create := fun _ r => (create, r)
    GetServiceByName := fun _ r => (byName, r)
    GetServiceById := fun _ r => (byId, r)
    UpdateServiceById := fun _ _ r => (update, r)
    DeleteServiceById := fun _ r => (delete, r) }

/-- A route client with fixed responses. -/
def scriptedRoutes (create byName byId update : Option Route × Option String)
    (delete : Option String) : RouteClient Unit :=
  { Create := fun _ r => (create, r)
    GetByName := fun _ r => (byName, r)
    GetById := fun _ r => (byId, r)
    UpdateById := fun _ _ r => (update, r)
    DeleteById := fun _ r => (delete, r) }

/-- A plugin client with fixed responses. -/
def scriptedPlugins {V : Type} (create : Option (Plugin V) × Option String)
    (list : List (Plugin V) × Option String)
    (byId update : Option (Plugin V) × Option String)
    (delete : Option String) : PluginClient Unit V :=
  { Create := fun _ r => (create, r)
    List := fun _ r => (list, r)
    GetById := fun _ r => (byId, r)
    UpdateById := fun _ _ r => (update, r)
    DeleteById := fun _ r => (delete, r) }

/-- Readers that take every attribute from the stored value of its type. -/
def storedReaders : Readers :=
  { readStringFromResource := fun d k =>
      match d.Get k with
      | some (.str s) => s
      | _ => ""
    readStringPtrFromResource := fun d k =>
      match d.Get k with
      | some (.str s) => some s
      | _ => none
    readIntPtrFromResource := fun d k =>
      match d.Get k with
      | some (.int n) => some n
      | _ => none
    readBoolPtrFromResource := fun d k =>
      match d.Get k with
      | some (.bool b) => some b
      | _ => none
    readIdPtrFromResource := fun d k =>
      match d.Get k with
      | some (.str s) => some s
      | _ => none
    readStringArrayPtrFromResource := fun d k =>
      match d.Get k with
      | some (.strs l) => some (l.map some)
      | _ => none
    readIpPortArrayFromResource := fun d k =>
      match d.Get k with
      | some (.ipPorts l) => some l
      | _ => none }

/-- A codec for configurations whose values are already JSON texts. -/
def textCodec : JsonCodec String :=
  { quote := fun s => "\"" ++ s ++ "\""
    value := fun v => v
    unmarshal := fun _ => .error "unexpected end of JSON input" }

/-- An empty service record. -/
def Service.empty : Service :=
  { Id := none, Name := none, Protocol := none, Host := none, Port := none, Path := none,
    Retries := none, ConnectTimeout := none, WriteTimeout := none, ReadTimeout := none }

/-- The service of the acceptance test `TestAccKongService_Upsert`, created
out of band before the provider runs. -/
def existingService : Service :=
  { Service.empty with
    Id := some "svc-1", Name := some "test", Host := some "foo.org", Protocol := some "https" }

/-- An empty route record. -/
def Route.empty : Route :=
  { Id := none, Name := none, Protocols := none, Methods := none, Hosts := none, Paths := none,
    StripPath := none, Sources := none, Destinations := none, PreserveHost := none,
    RegexPriority := none, Snis := none, Service := none }

/-- The provider defaults: every flag off.  The timeout leaves room for
three further attempts. -/
def defaultConfig : config :=
  { strictPlugins := false, strictConsumerPlugins := false, upsertResources := false,
    retryOnError := false, retryTimeout := 3 }

/-- The provider with `upsert_resources = true`. -/
def upsertConfig : config := { defaultConfig with upsertResources := true }

/-- The provider with `strict_plugins_match = true`. -/
def strictConfig : config := { defaultConfig with strictPlugins := true }

/-- The provider with `retry_on_error = true`. -/
def retryConfig : config := { defaultConfig with retryOnError := true }

/-- A service client over a counter of `Create` calls: the first `Create` is
refused, the following ones succeed under the identifier "svc-2". -/
def flakyServices : ServiceClient Nat :=
  { Create := fun _ n =>
      if n = 0 then ((none, some "connection refused"), n + 1)
      else ((some { Service.empty with Id := some "svc-2" }, none), n + 1)
    GetServiceByName := fun _ n => ((none, none), n)
    GetServiceById := fun _ n => ((some { Service.empty with Id := some "svc-2" }, none), n)
    UpdateServiceById := fun _ _ n => ((none, none), n)
    DeleteServiceById := fun _ n => (none, n) }

/-- A function that fails at every invocation. -/
def alwaysFails : Unit → Option String × Unit := fun s => (some "boom", s)

/-- A function over a counter that fails until the counter reaches `n`. -/
def failsUntil (n : Nat) : Nat → Option String × Nat :=
  fun k => if k < n then (some "boom", k + 1) else (none, k + 1)

/-- The world before any call. -/
def World.start : World Unit := { remote := (), calls := [] }

/-- The number of `Create` calls in a trace. -/
def createCount (calls : List Call) : Nat := (calls.filter Call.isCreate).length

/-! ## Lemmas -/

theorem Retry_eq_of_not_retryable {σ : Type} (f : World σ → Attempt × World σ)
    (budget : Nat) (w : World σ)
    (hf : ∀ e, (f w).1 = .fail e → e.Retryable = false) :
    Retry f budget w = f w := by
  cases budget with
  | zero => rfl
  | succ n =>
    unfold Retry
    rcases hfw : f w with ⟨a, w1⟩
    cases a with
    | done id => rfl
    | panic => rfl
    | fail e =>
      have he : e.Retryable = false := hf e (by rw [hfw])
      simp [he]

theorem strContains_append_left (a e sub : String) (h : strContains e sub = true) :
    strContains (a ++ e) sub = true := by
  unfold strContains at *
  simp only [decide_eq_true_eq] at *
  obtain ⟨s, t, hst⟩ := h
  refine ⟨a.toList ++ s, t, ?_⟩
  simp only [String.toList, String.data_append] at *
  rw [← hst]
  simp [List.append_assoc]

theorem setStrIfPresent_id (d : ResourceData) (key : String) (p : Option String) :
    (setStrIfPresent d key p).id = d.id := by
  cases p <;> rfl

theorem setIntIfPresent_id (d : ResourceData) (key : String) (p : Option Int) :
    (setIntIfPresent d key p).id = d.id := by
  cases p <;> rfl

theorem setBoolIfPresent_id (d : ResourceData) (key : String) (p : Option Bool) :
    (setBoolIfPresent d key p).id = d.id := by
  cases p <;> rfl

theorem setStrsIfPresent_id (d : ResourceData) (key : String)
    (p : Option (List (Option String))) : (setStrsIfPresent d key p).id = d.id := by
  cases p <;> rfl

theorem serviceToResourceData_id (d : ResourceData) (service : Service) :
    (serviceToResourceData d service).id = d.id := by
  simp only [serviceToResourceData, setStrIfPresent_id, setIntIfPresent_id]

theorem resourceKongServiceRead_calls {σ : Type} (c : ServiceClient σ) (d : ResourceData)
    (w : World σ) :
    (resourceKongServiceRead c d w).w.calls = w.calls ++ [.GetById .service d.id] := by
  unfold resourceKongServiceRead
  rcases hg : c.GetServiceById d.Id w.remote with ⟨⟨s, e⟩, r⟩
  cases e <;> cases s <;> simp [World.step, ResourceData.Id]

theorem resourceKongServiceRead_id {σ : Type} (c : ServiceClient σ) (d : ResourceData)
    (w : World σ) (hfound : (c.GetServiceById d.id w.remote).1 ≠ (none, none)) :
    (resourceKongServiceRead c d w).d.id = d.id := by
  unfold resourceKongServiceRead
  simp only [ResourceData.Id]
  rcases hg : c.GetServiceById d.id w.remote with ⟨⟨s, e⟩, r⟩
  rw [hg] at hfound
  cases e <;> cases s <;> simp_all [serviceToResourceData_id]

/-! ## C1: service adoption -/

/-- C1. Service adoption.  For a desired service record whose request name
is `N`: if `upsert_resources` is enabled, the client's `Create` fails with an
error text containing "unique constraint violation", and
`GetServiceByName(N)` returns an existing service with identifier `I`, then
the retry loop ends on its first attempt with the identifier `I`,
`resourceKongServiceCreate` sets the resource identifier to `I` and
continues with the read-back of `I`; the calls it issues are exactly one
`Create`, the lookup and the `GetServiceById(I)` of the read-back, so no
further `Create` is made; and the identifier tracked at the end is `I`
whenever the read-back does not report the service as absent. -/
theorem C1_service_adoption {σ : Type} (h : Readers) (c : ServiceClient σ) (cfg : config)
    (fmtV : ServiceRequest → String) (d : ResourceData) (w : World σ)
    (N I e : String) (failed : Option Service) (existing : Service) (r1 r2 : σ)
    (hname : (createKongServiceRequestFromResourceData h d).Name = some N)
    (hupsert : cfg.upsertResources = true)
    (hcreate : c.Create (createKongServiceRequestFromResourceData h d) w.remote
      = ((failed, some e), r1))
    (hconflict : strContains e "unique constraint violation" = true)
    (hlookup : c.GetServiceByName N r1 = ((some existing, none), r2))
    (hid : existing.Id = some I) :
    Retry (serviceCreateAttempt c cfg fmtV (createKongServiceRequestFromResourceData h d))
        cfg.retryTimeout w
      = (.done I, ⟨r2, w.calls ++ [.Create .service, .GetByName .service N]⟩)
    ∧ resourceKongServiceCreate h c cfg fmtV d w
      = resourceKongServiceRead c (d.SetId I)
          ⟨r2, w.calls ++ [.Create .service, .GetByName .service N]⟩
    ∧ (resourceKongServiceCreate h c cfg fmtV d w).w.calls
      = w.calls ++ [.Create .service, .GetByName .service N, .GetById .service I]
    ∧ createCount (resourceKongServiceCreate h c cfg fmtV d w).w.calls
      = createCount w.calls + 1
    ∧ ((c.GetServiceById I r2).1 ≠ (none, none) →
        (resourceKongServiceCreate h c cfg fmtV d w).d.id = I) := by
  have hatt : serviceCreateAttempt c cfg fmtV (createKongServiceRequestFromResourceData h d) w
      = (.done I, ⟨r2, w.calls ++ [.Create .service, .GetByName .service N]⟩) := by
    unfold serviceCreateAttempt
    simp [hname, hcreate, hupsert, hconflict, World.step, hlookup, hid]
  have hretry : Retry (serviceCreateAttempt c cfg fmtV
      (createKongServiceRequestFromResourceData h d)) cfg.retryTimeout w
      = (.done I, ⟨r2, w.calls ++ [.Create .service, .GetByName .service N]⟩) := by
    rw [Retry_eq_of_not_retryable _ _ _ (by rw [hatt]; intro e he; cases he), hatt]
  have hcr : resourceKongServiceCreate h c cfg fmtV d w
      = resourceKongServiceRead c (d.SetId I)
          ⟨r2, w.calls ++ [.Create .service, .GetByName .service N]⟩ := by
    unfold resourceKongServiceCreate
    simp only [hretry]
  refine ⟨hretry, hcr, ?_, ?_, ?_⟩
  · rw [hcr, resourceKongServiceRead_calls]
    simp [ResourceData.SetId]
  · rw [hcr, resourceKongServiceRead_calls]
    simp [createCount, Call.isCreate]
  · intro hfound
    rw [hcr, resourceKongServiceRead_id]
    · rfl
    · exact hfound

/-- C1, on a scripted client: the service "test" exists under the identifier
"svc-1" and `Create` reports the conflict. -/
theorem C1_service_adoption_witness :
    (resourceKongServiceCreate storedReaders
        (scriptedServices (none, some "409: unique constraint violation")
          (some existingService, none)
          (some existingService, none)
          (none, none) none)
        upsertConfig (fun _ => "req")
        ⟨"", [("name", .str "test")]⟩ World.start).w.calls
      = [.Create .service, .GetByName .service "test", .GetById .service "svc-1"]
    ∧ (resourceKongServiceCreate storedReaders
        (scriptedServices (none, some "409: unique constraint violation")
          (some existingService, none)
          (some existingService, none)
          (none, none) none)
        upsertConfig (fun _ => "req")
        ⟨"", [("name", .str "test")]⟩ World.start).d.id = "svc-1" := by
  have key := C1_service_adoption storedReaders
    (scriptedServices (none, some "409: unique constraint violation")
      (some existingService, none)
      (some existingService, none)
      (none, none) none)
    upsertConfig (fun _ => "req")
    ⟨"", [("name", .str "test")]⟩ World.start "test" "svc-1"
    "409: unique constraint violation" none
    existingService () ()
    (by decide) rfl rfl (by decide) rfl rfl
  exact ⟨key.2.2.1, key.2.2.2.2 (by decide)⟩

/-! ## C2 and C3: failures of Create -/

theorem findPlugin_calls {σ V : Type} (c : PluginClient σ V) (name : String)
    (consumerId routeId serviceId : Option String) (w : World σ) :
    (findPlugin c name consumerId routeId serviceId w).2.calls = w.calls ++ [.List .plugin] := by
  unfold findPlugin
  rcases hl : c.List 1000 w.remote with ⟨⟨l, e⟩, r⟩
  cases e with
  | some err => simp [World.step]
  | none =>
    simp only []
    cases scanPlugins name consumerId routeId serviceId l <;> simp [World.step]

theorem serviceCreateAttempt_fail {σ : Type} (c : ServiceClient σ) (cfg : config)
    (fmtV : ServiceRequest → String) (req : ServiceRequest) (w w1 : World σ) (e : RetryError)
    (hfail : serviceCreateAttempt c cfg fmtV req w = (.fail e, w1)) :
    e.Retryable = cfg.retryOnError ∧ createCount w1.calls = createCount w.calls + 1 := by
  unfold serviceCreateAttempt at hfail
  cases hn : req.Name with
  | none => simp [hn] at hfail
  | some name =>
    simp only [hn] at hfail
    rcases hc : c.Create req w.remote with ⟨⟨s, err⟩, r⟩
    rw [hc] at hfail
    cases err with
    | none =>
      cases s with
      | none => simp at hfail
      | some sv => cases hsv : sv.Id <;> simp [hsv] at hfail
    | some err =>
      simp only [] at hfail
      split at hfail
      · rcases hl : c.GetServiceByName name (w.step (.Create .service) r).remote
          with ⟨⟨s2, err2⟩, r2⟩
        rw [hl] at hfail
        cases err2 with
        | some err2 =>
          simp only [Prod.mk.injEq, Attempt.fail.injEq] at hfail
          obtain ⟨he, hw⟩ := hfail
          subst he hw
          simp [World.step, createCount, Call.isCreate]
        | none =>
          cases s2 with
          | none => simp at hfail
          | some db => cases hdb : db.Id <;> simp [hdb] at hfail
      · simp only [Prod.mk.injEq, Attempt.fail.injEq] at hfail
        obtain ⟨he, hw⟩ := hfail
        subst he hw
        simp [World.step, createCount, Call.isCreate]

theorem routeCreateAttempt_fail {σ : Type} (c : RouteClient σ) (cfg : config)
    (fmtV : RouteRequest → String) (req : RouteRequest) (w w1 : World σ) (e : RetryError)
    (hfail : routeCreateAttempt c cfg fmtV req w = (.fail e, w1)) :
    e.Retryable = cfg.retryOnError ∧ createCount w1.calls = createCount w.calls + 1 := by
  unfold routeCreateAttempt at hfail
  rcases hc : c.Create req w.remote with ⟨⟨s, err⟩, r⟩
  rw [hc] at hfail
  cases err with
  | none =>
    cases s with
    | none => simp at hfail
    | some sv => cases hsv : sv.Id <;> simp [hsv] at hfail
  | some err =>
    simp only [] at hfail
    split at hfail
    · cases hn : req.Name with
      | none => simp [hn] at hfail
      | some name =>
        simp only [hn] at hfail
        rcases hl : c.GetByName name (w.step (.Create .route) r).remote with ⟨⟨s2, err2⟩, r2⟩
        rw [hl] at hfail
        cases err2 with
        | some err2 =>
          simp only [Prod.mk.injEq, Attempt.fail.injEq] at hfail
          obtain ⟨he, hw⟩ := hfail
          subst he hw
          simp [World.step, createCount, Call.isCreate]
        | none =>
          cases s2 with
          | none => simp at hfail
          | some db =>
            cases hdb : db.Id with
            | none => simp [hdb] at hfail
            | some i =>
              simp only [hdb] at hfail
              cases s with
              | none => simp at hfail
              | some rt => cases hrt : rt.Id <;> simp [hrt] at hfail
    · simp only [Prod.mk.injEq, Attempt.fail.injEq] at hfail
      obtain ⟨he, hw⟩ := hfail
      subst he hw
      simp [World.step, createCount, Call.isCreate]

theorem pluginCreateAttempt_fail {σ V : Type} (c : PluginClient σ V) (cfg : config)
    (fmtV : PluginRequest V → String) (req : PluginRequest V) (w w1 : World σ) (e : RetryError)
    (hfail : pluginCreateAttempt c cfg fmtV req w = (.fail e, w1)) :
    e.Retryable = cfg.retryOnError ∧ createCount w1.calls = createCount w.calls + 1 := by
  unfold pluginCreateAttempt at hfail
  rcases hc : c.Create req w.remote with ⟨⟨s, err⟩, r⟩
  rw [hc] at hfail
  cases err with
  | none => cases s <;> simp at hfail
  | some err =>
    simp only [] at hfail
    split at hfail
    · have hcalls := findPlugin_calls c req.Name req.ConsumerId req.RouteId req.ServiceId
        (w.step (.Create .plugin) r)
      rcases hl : findPlugin c req.Name req.ConsumerId req.RouteId req.ServiceId
        (w.step (.Create .plugin) r) with ⟨⟨s2, err2⟩, w2⟩
      rw [hl] at hfail hcalls
      cases err2 with
      | some err2 =>
        simp only [Prod.mk.injEq, Attempt.fail.injEq] at hfail
        obtain ⟨he, hw⟩ := hfail
        subst he hw
        simp only [] at hcalls
        rw [hcalls]
        simp [World.step, createCount, Call.isCreate]
      | none => cases s2 <;> simp at hfail
    · simp only [Prod.mk.injEq, Attempt.fail.injEq] at hfail
      obtain ⟨he, hw⟩ := hfail
      subst he hw
      simp [World.step, createCount, Call.isCreate]

/-- C2. Conflict without upsert is fatal.  With `upsert_resources` disabled
and `retry_on_error` unset, when the client's `Create` fails with an error
text `e` containing "unique constraint violation", Create of a service, of
a route and of a plugin each return the error "failed to create kong …:
<request> error: e", which contains the conflict text; the only call made is
that one `Create` (no `GetServiceByName`, `GetByName` or `List`), and the
resource data, identifier included, is left as it was. -/
theorem C2_conflict_without_upsert_is_fatal {σ V : Type} (h : Readers) (cfg : config)
    (e : String) (d : ResourceData) (w : World σ)
    (hupsert : cfg.upsertResources = false)
    (hretry : cfg.retryOnError = false)
    (hconflict : strContains e "unique constraint violation" = true) :
    (∀ (c : ServiceClient σ) (fmtV : ServiceRequest → String) (N : String)
        (failed : Option Service) (r : σ),
        (createKongServiceRequestFromResourceData h d).Name = some N →
        c.Create (createKongServiceRequestFromResourceData h d) w.remote
          = ((failed, some e), r) →
        (resourceKongServiceCreate h c cfg fmtV d w).out
          = .ret (some ("failed to create kong service: "
              ++ fmtV (createKongServiceRequestFromResourceData h d) ++ " error: " ++ e))
        ∧ strContains ("failed to create kong service: "
              ++ fmtV (createKongServiceRequestFromResourceData h d) ++ " error: " ++ e)
            "unique constraint violation" = true
        ∧ (resourceKongServiceCreate h c cfg fmtV d w).d = d
        ∧ (resourceKongServiceCreate h c cfg fmtV d w).w.calls = w.calls ++ [.Create .service])
    ∧ (∀ (c : RouteClient σ) (fmtV : RouteRequest → String)
        (failed : Option Route) (r : σ),
        c.Create (createKongRouteRequestFromResourceData h d) w.remote
          = ((failed, some e), r) →
        (resourceKongRouteCreate h c cfg fmtV d w).out
          = .ret (some ("failed to create kong route: "
              ++ fmtV (createKongRouteRequestFromResourceData h d) ++ " error: " ++ e))
        ∧ strContains ("failed to create kong route: "
              ++ fmtV (createKongRouteRequestFromResourceData h d) ++ " error: " ++ e)
            "unique constraint violation" = true
        ∧ (resourceKongRouteCreate h c cfg fmtV d w).d = d
        ∧ (resourceKongRouteCreate h c cfg fmtV d w).w.calls = w.calls ++ [.Create .route])
    ∧ (∀ (j : JsonCodec V) (c : PluginClient σ V) (fmtV : PluginRequest V → String)
        (req : PluginRequest V) (failed : Option (Plugin V)) (r : σ),
        createKongPluginRequestFromResourceData h j d = some (req, none) →
        c.Create req w.remote = ((failed, some e), r) →
        (resourceKongPluginCreate h j c cfg fmtV d w).out
          = .ret (some ("failed to create kong plugin: " ++ fmtV req ++ " error: " ++ e))
        ∧ strContains ("failed to create kong plugin: " ++ fmtV req ++ " error: " ++ e)
            "unique constraint violation" = true
        ∧ (resourceKongPluginCreate h j c cfg fmtV d w).d = d
        ∧ (resourceKongPluginCreate h j c cfg fmtV d w).w.calls = w.calls ++ [.Create .plugin]) := by
  refine ⟨?_, ?_, ?_⟩
  · intro c fmtV N failed r hname hcreate
    have hatt : serviceCreateAttempt c cfg fmtV (createKongServiceRequestFromResourceData h d) w
        = (.fail ⟨"failed to create kong service: "
              ++ fmtV (createKongServiceRequestFromResourceData h d) ++ " error: " ++ e, false⟩,
            w.step (.Create .service) r) := by
      unfold serviceCreateAttempt
      simp [hname, hcreate, hupsert, hretry]
    have hrun : Retry (serviceCreateAttempt c cfg fmtV
        (createKongServiceRequestFromResourceData h d)) cfg.retryTimeout w
        = (.fail ⟨"failed to create kong service: "
              ++ fmtV (createKongServiceRequestFromResourceData h d) ++ " error: " ++ e, false⟩,
            w.step (.Create .service) r) := by
      rw [Retry_eq_of_not_retryable _ _ _ (by
        rw [hatt]; intro e1 he1; cases he1; rfl), hatt]
    refine ⟨?_, strContains_append_left _ _ _ hconflict, ?_, ?_⟩ <;>
      simp [resourceKongServiceCreate, hrun, World.step]
  · intro c fmtV failed r hcreate
    have hatt : routeCreateAttempt c cfg fmtV (createKongRouteRequestFromResourceData h d) w
        = (.fail ⟨"failed to create kong route: "
              ++ fmtV (createKongRouteRequestFromResourceData h d) ++ " error: " ++ e, false⟩,
            w.step (.Create .route) r) := by
      unfold routeCreateAttempt
      simp [hcreate, hupsert, hretry]
    have hrun : Retry (routeCreateAttempt c cfg fmtV
        (createKongRouteRequestFromResourceData h d)) cfg.retryTimeout w
        = (.fail ⟨"failed to create kong route: "
              ++ fmtV (createKongRouteRequestFromResourceData h d) ++ " error: " ++ e, false⟩,
            w.step (.Create .route) r) := by
      rw [Retry_eq_of_not_retryable _ _ _ (by
        rw [hatt]; intro e1 he1; cases he1; rfl), hatt]
    refine ⟨?_, strContains_append_left _ _ _ hconflict, ?_, ?_⟩ <;>
      simp [resourceKongRouteCreate, hrun, World.step]
  · intro j c fmtV req failed r hreq hcreate
    have hatt : pluginCreateAttempt c cfg fmtV req w
        = (.fail ⟨"failed to create kong plugin: " ++ fmtV req ++ " error: " ++ e, false⟩,
            w.step (.Create .plugin) r) := by
      unfold pluginCreateAttempt
      simp [hcreate, hupsert, hretry]
    have hrun : Retry (pluginCreateAttempt c cfg fmtV req) cfg.retryTimeout w
        = (.fail ⟨"failed to create kong plugin: " ++ fmtV req ++ " error: " ++ e, false⟩,
            w.step (.Create .plugin) r) := by
      rw [Retry_eq_of_not_retryable _ _ _ (by
        rw [hatt]; intro e1 he1; cases he1; rfl), hatt]
    refine ⟨?_, strContains_append_left _ _ _ hconflict, ?_, ?_⟩ <;>
      simp [resourceKongPluginCreate, hreq, hrun, World.step]

/-- C2, on the scripted service client of the acceptance test: the service
"test" exists, upsert is off, and Create ends with the conflict error after
the single `Create` call. -/
theorem C2_conflict_without_upsert_is_fatal_witness :
    (resourceKongServiceCreate storedReaders
        (scriptedServices (none, some "409: unique constraint violation")
          (some existingService, none) (some existingService, none) (none, none) none)
        defaultConfig (fun _ => "req")
        ⟨"", [("name", .str "test")]⟩ World.start).out
      = .ret (some ("failed to create kong service: " ++ "req" ++ " error: "
          ++ "409: unique constraint violation"))
    ∧ (resourceKongServiceCreate storedReaders
        (scriptedServices (none, some "409: unique constraint violation")
          (some existingService, none) (some existingService, none) (none, none) none)
        defaultConfig (fun _ => "req")
        ⟨"", [("name", .str "test")]⟩ World.start).d = ⟨"", [("name", .str "test")]⟩
    ∧ (resourceKongServiceCreate storedReaders
        (scriptedServices (none, some "409: unique constraint violation")
          (some existingService, none) (some existingService, none) (none, none) none)
        defaultConfig (fun _ => "req")
        ⟨"", [("name", .str "test")]⟩ World.start).w.calls = [.Create .service] := by
  have key := (C2_conflict_without_upsert_is_fatal (V := String) storedReaders
    defaultConfig "409: unique constraint violation"
    ⟨"", [("name", .str "test")]⟩ World.start rfl rfl (by decide)).1
    (scriptedServices (none, some "409: unique constraint violation")
      (some existingService, none) (some existingService, none) (none, none) none)
    (fun _ => "req") "test" none () (by decide) rfl
  exact ⟨key.1, key.2.2.1, key.2.2.2⟩

theorem resourceKongRouteRead_calls {σ : Type} (c : RouteClient σ) (d : ResourceData)
    (w : World σ) :
    (resourceKongRouteRead c d w).w.calls = w.calls ++ [.GetById .route d.id] := by
  unfold resourceKongRouteRead
  rcases hg : c.GetById d.Id w.remote with ⟨⟨s, e⟩, r⟩
  cases e <;> cases s <;> simp [World.step, ResourceData.Id]

theorem resourceKongPluginRead_calls {σ V : Type} (j : JsonCodec V) (c : PluginClient σ V)
    (cfg : config) (d : ResourceData) (w : World σ) :
    (resourceKongPluginRead j c cfg d w).w.calls = w.calls ++ [.GetById .plugin d.id] := by
  unfold resourceKongPluginRead
  rcases hg : c.GetById d.Id w.remote with ⟨⟨s, e⟩, r⟩
  cases e with
  | some err => simp [World.step, ResourceData.Id]
  | none =>
    cases s with
    | none => simp [World.step, ResourceData.Id]
    | some p =>
      simp only []
      cases pluginToResourceData j cfg d p <;> simp [World.step, ResourceData.Id]

theorem serviceCreateAttempt_createCount {σ : Type} (c : ServiceClient σ) (cfg : config)
    (fmtV : ServiceRequest → String) (req : ServiceRequest) (w : World σ) (N : String)
    (hname : req.Name = some N) :
    createCount (serviceCreateAttempt c cfg fmtV req w).2.calls = createCount w.calls + 1 := by
  unfold serviceCreateAttempt
  simp only [hname]
  rcases hc : c.Create req w.remote with ⟨⟨s, err⟩, r⟩
  cases err with
  | none =>
    cases s with
    | none => simp [World.step, createCount, Call.isCreate]
    | some sv => cases hsv : sv.Id <;> simp [hsv, World.step, createCount, Call.isCreate]
  | some err =>
    simp only []
    split
    · rcases hl : c.GetServiceByName N (w.step (.Create .service) r).remote
        with ⟨⟨s2, err2⟩, r2⟩
      cases err2 with
      | some err2 => simp [World.step, createCount, Call.isCreate]
      | none =>
        cases s2 with
        | none => simp [World.step, createCount, Call.isCreate]
        | some db => cases hdb : db.Id <;> simp [hdb, World.step, createCount, Call.isCreate]
    · simp [World.step, createCount, Call.isCreate]

theorem routeCreateAttempt_createCount {σ : Type} (c : RouteClient σ) (cfg : config)
    (fmtV : RouteRequest → String) (req : RouteRequest) (w : World σ) :
    createCount (routeCreateAttempt c cfg fmtV req w).2.calls = createCount w.calls + 1 := by
  unfold routeCreateAttempt
  rcases hc : c.Create req w.remote with ⟨⟨s, err⟩, r⟩
  cases err with
  | none =>
    cases s with
    | none => simp [World.step, createCount, Call.isCreate]
    | some sv => cases hsv : sv.Id <;> simp [hsv, World.step, createCount, Call.isCreate]
  | some err =>
    simp only []
    split
    · cases hn : req.Name with
      | none => simp [World.step, createCount, Call.isCreate]
      | some name =>
        simp only []
        rcases hl : c.GetByName name (w.step (.Create .route) r).remote with ⟨⟨s2, err2⟩, r2⟩
        cases err2 with
        | some err2 => simp [World.step, createCount, Call.isCreate]
        | none =>
          cases s2 with
          | none => simp [World.step, createCount, Call.isCreate]
          | some db =>
            cases hdb : db.Id with
            | none => simp [hdb, World.step, createCount, Call.isCreate]
            | some i =>
              cases s with
              | none => simp [hdb, World.step, createCount, Call.isCreate]
              | some rt =>
                cases hrt : rt.Id <;> simp [hdb, hrt, World.step, createCount, Call.isCreate]
    · simp [World.step, createCount, Call.isCreate]

theorem pluginCreateAttempt_createCount {σ V : Type} (c : PluginClient σ V) (cfg : config)
    (fmtV : PluginRequest V → String) (req : PluginRequest V) (w : World σ) :
    createCount (pluginCreateAttempt c cfg fmtV req w).2.calls = createCount w.calls + 1 := by
  unfold pluginCreateAttempt
  rcases hc : c.Create req w.remote with ⟨⟨s, err⟩, r⟩
  cases err with
  | none => cases s <;> simp [World.step, createCount, Call.isCreate]
  | some err =>
    simp only []
    split
    · have hcalls := findPlugin_calls c req.Name req.ConsumerId req.RouteId req.ServiceId
        (w.step (.Create .plugin) r)
      rcases hl : findPlugin c req.Name req.ConsumerId req.RouteId req.ServiceId
        (w.step (.Create .plugin) r) with ⟨⟨s2, err2⟩, w2⟩
      rw [hl] at hcalls
      simp only [] at hcalls
      cases err2 with
      | some err2 => simp [hcalls, World.step, createCount, Call.isCreate]
      | none => cases s2 <;> simp [hcalls, World.step, createCount, Call.isCreate]
    · simp [World.step, createCount, Call.isCreate]

theorem Retry_service_of_flag_unset {σ : Type} (c : ServiceClient σ) (cfg : config)
    (fmtV : ServiceRequest → String) (req : ServiceRequest) (w : World σ)
    (hretry : cfg.retryOnError = false) (budget : Nat) :
    Retry (serviceCreateAttempt c cfg fmtV req) budget w
      = serviceCreateAttempt c cfg fmtV req w := by
  apply Retry_eq_of_not_retryable
  intro e he
  have hfail : serviceCreateAttempt c cfg fmtV req w
      = (.fail e, (serviceCreateAttempt c cfg fmtV req w).2) := Prod.ext he rfl
  rw [(serviceCreateAttempt_fail c cfg fmtV req w _ e hfail).1, hretry]

theorem Retry_route_of_flag_unset {σ : Type} (c : RouteClient σ) (cfg : config)
    (fmtV : RouteRequest → String) (req : RouteRequest) (w : World σ)
    (hretry : cfg.retryOnError = false) (budget : Nat) :
    Retry (routeCreateAttempt c cfg fmtV req) budget w
      = routeCreateAttempt c cfg fmtV req w := by
  apply Retry_eq_of_not_retryable
  intro e he
  have hfail : routeCreateAttempt c cfg fmtV req w
      = (.fail e, (routeCreateAttempt c cfg fmtV req w).2) := Prod.ext he rfl
  rw [(routeCreateAttempt_fail c cfg fmtV req w _ e hfail).1, hretry]

theorem Retry_plugin_of_flag_unset {σ V : Type} (c : PluginClient σ V) (cfg : config)
    (fmtV : PluginRequest V → String) (req : PluginRequest V) (w : World σ)
    (hretry : cfg.retryOnError = false) (budget : Nat) :
    Retry (pluginCreateAttempt c cfg fmtV req) budget w
      = pluginCreateAttempt c cfg fmtV req w := by
  apply Retry_eq_of_not_retryable
  intro e he
  have hfail : pluginCreateAttempt c cfg fmtV req w
      = (.fail e, (pluginCreateAttempt c cfg fmtV req w).2) := Prod.ext he rfl
  rw [(pluginCreateAttempt_fail c cfg fmtV req w _ e hfail).1, hretry]

theorem resourceKongServiceCreate_createCount {σ : Type} (h : Readers) (c : ServiceClient σ)
    (cfg : config) (fmtV : ServiceRequest → String) (d : ResourceData) (w : World σ)
    (N : String) (hretry : cfg.retryOnError = false)
    (hname : (createKongServiceRequestFromResourceData h d).Name = some N) :
    createCount (resourceKongServiceCreate h c cfg fmtV d w).w.calls
      = createCount w.calls + 1 := by
  have hcount := serviceCreateAttempt_createCount c cfg fmtV _ w N hname
  unfold resourceKongServiceCreate
  simp only [Retry_service_of_flag_unset c cfg fmtV _ w hretry]
  rcases hatt : serviceCreateAttempt c cfg fmtV (createKongServiceRequestFromResourceData h d) w
    with ⟨a, w1⟩
  rw [hatt] at hcount
  cases a with
  | fail e => exact hcount
  | panic => exact hcount
  | done id =>
    simp only [resourceKongServiceRead_calls]
    simpa [createCount, Call.isCreate] using hcount

theorem resourceKongRouteCreate_createCount {σ : Type} (h : Readers) (c : RouteClient σ)
    (cfg : config) (fmtV : RouteRequest → String) (d : ResourceData) (w : World σ)
    (hretry : cfg.retryOnError = false) :
    createCount (resourceKongRouteCreate h c cfg fmtV d w).w.calls
      = createCount w.calls + 1 := by
  have hcount := routeCreateAttempt_createCount c cfg fmtV
    (createKongRouteRequestFromResourceData h d) w
  unfold resourceKongRouteCreate
  simp only [Retry_route_of_flag_unset c cfg fmtV _ w hretry]
  rcases hatt : routeCreateAttempt c cfg fmtV (createKongRouteRequestFromResourceData h d) w
    with ⟨a, w1⟩
  rw [hatt] at hcount
  cases a with
  | fail e => exact hcount
  | panic => exact hcount
  | done id =>
    simp only [resourceKongRouteRead_calls]
    simpa [createCount, Call.isCreate] using hcount

theorem resourceKongPluginCreate_createCount {σ V : Type} (h : Readers) (j : JsonCodec V)
    (c : PluginClient σ V) (cfg : config) (fmtV : PluginRequest V → String)
    (d : ResourceData) (w : World σ) (req : PluginRequest V)
    (hretry : cfg.retryOnError = false)
    (hreq : createKongPluginRequestFromResourceData h j d = some (req, none)) :
    createCount (resourceKongPluginCreate h j c cfg fmtV d w).w.calls
      = createCount w.calls + 1 := by
  have hcount := pluginCreateAttempt_createCount c cfg fmtV req w
  unfold resourceKongPluginCreate
  simp only [hreq, Retry_plugin_of_flag_unset c cfg fmtV _ w hretry]
  rcases hatt : pluginCreateAttempt c cfg fmtV req w with ⟨a, w1⟩
  rw [hatt] at hcount
  cases a with
  | fail e => exact hcount
  | panic => exact hcount
  | done id =>
    simp only [resourceKongPluginRead_calls]
    simpa [createCount, Call.isCreate] using hcount

/-- C3. No retry when the flag is unset.  With `retry_on_error = false`, for
service, route and plugin (for the service with a request name, for the
plugin once its request is built): whatever the client answers, the retry
loop returns what the first run of its function gives, for every timeout,
and Create contains exactly one `Create` call.  When the client's `Create`
fails with `e` and no adoption is tried (upsert disabled, or `e` is not a
conflict), Create returns "failed to create kong …: <request> error: e"
after that single call, handed to the loop as a non-retryable `RetryError`.
When the adoption lookup fails, Create returns the error of the lookup after
the one `Create` and the one lookup.  In each case the resource data is left
as it was.  A service lookup that returns neither a record nor an error
makes Create panic, again after one `Create` and one lookup. -/
theorem C3_no_retry_when_flag_unset {σ V : Type} (h : Readers) (cfg : config)
    (d : ResourceData) (w : World σ)
    (hretry : cfg.retryOnError = false) :
    (∀ (c : ServiceClient σ) (fmtV : ServiceRequest → String) (N : String),
      (createKongServiceRequestFromResourceData h d).Name = some N →
      (∀ budget, Retry (serviceCreateAttempt c cfg fmtV
            (createKongServiceRequestFromResourceData h d)) budget w
          = serviceCreateAttempt c cfg fmtV (createKongServiceRequestFromResourceData h d) w)
      ∧ createCount (resourceKongServiceCreate h c cfg fmtV d w).w.calls
          = createCount w.calls + 1
      ∧ (∀ failed e r1,
          c.Create (createKongServiceRequestFromResourceData h d) w.remote
            = ((failed, some e), r1) →
          (cfg.upsertResources = false
            ∨ strContains e "unique constraint violation" = false →
            (∀ budget, Retry (serviceCreateAttempt c cfg fmtV
                  (createKongServiceRequestFromResourceData h d)) budget w
                = (.fail ⟨"failed to create kong service: "
                      ++ fmtV (createKongServiceRequestFromResourceData h d)
                      ++ " error: " ++ e, false⟩,
                    ⟨r1, w.calls ++ [.Create .service]⟩))
            ∧ resourceKongServiceCreate h c cfg fmtV d w
                = ⟨.ret (some ("failed to create kong service: "
                      ++ fmtV (createKongServiceRequestFromResourceData h d)
                      ++ " error: " ++ e)), d, ⟨r1, w.calls ++ [.Create .service]⟩⟩)
          ∧ (cfg.upsertResources = true →
            strContains e "unique constraint violation" = true →
            (∀ x e2 r2, c.GetServiceByName N r1 = ((x, some e2), r2) →
              (∀ budget, Retry (serviceCreateAttempt c cfg fmtV
                    (createKongServiceRequestFromResourceData h d)) budget w
                  = (.fail ⟨"could not read existing Kong service " ++ N ++ ": " ++ e2,
                        false⟩,
                      ⟨r2, w.calls ++ [.Create .service, .GetByName .service N]⟩))
              ∧ resourceKongServiceCreate h c cfg fmtV d w
                  = ⟨.ret (some ("could not read existing Kong service " ++ N ++ ": " ++ e2)),
                      d, ⟨r2, w.calls ++ [.Create .service, .GetByName .service N]⟩⟩)
            ∧ (∀ r2, c.GetServiceByName N r1 = ((none, none), r2) →
              resourceKongServiceCreate h c cfg fmtV d w
                = ⟨.panic, d, ⟨r2, w.calls ++ [.Create .service, .GetByName .service N]⟩⟩))))
    ∧ (∀ (c : RouteClient σ) (fmtV : RouteRequest → String),
      (∀ budget, Retry (routeCreateAttempt c cfg fmtV
            (createKongRouteRequestFromResourceData h d)) budget w
          = routeCreateAttempt c cfg fmtV (createKongRouteRequestFromResourceData h d) w)
      ∧ createCount (resourceKongRouteCreate h c cfg fmtV d w).w.calls
          = createCount w.calls + 1
      ∧ (∀ failed e r1,
          c.Create (createKongRouteRequestFromResourceData h d) w.remote
            = ((failed, some e), r1) →
          (cfg.upsertResources = false
            ∨ strContains e "unique constraint violation" = false →
            (∀ budget, Retry (routeCreateAttempt c cfg fmtV
                  (createKongRouteRequestFromResourceData h d)) budget w
                = (.fail ⟨"failed to create kong route: "
                      ++ fmtV (createKongRouteRequestFromResourceData h d)
                      ++ " error: " ++ e, false⟩,
                    ⟨r1, w.calls ++ [.Create .route]⟩))
            ∧ resourceKongRouteCreate h c cfg fmtV d w
                = ⟨.ret (some ("failed to create kong route: "
                      ++ fmtV (createKongRouteRequestFromResourceData h d)
                      ++ " error: " ++ e)), d, ⟨r1, w.calls ++ [.Create .route]⟩⟩)
          ∧ (cfg.upsertResources = true →
            strContains e "unique constraint violation" = true →
            ∀ N x e2 r2, (createKongRouteRequestFromResourceData h d).Name = some N →
              c.GetByName N r1 = ((x, some e2), r2) →
              (∀ budget, Retry (routeCreateAttempt c cfg fmtV
                    (createKongRouteRequestFromResourceData h d)) budget w
                  = (.fail ⟨"could not read existing Kong service " ++ N ++ ": " ++ e2,
                        false⟩,
                      ⟨r2, w.calls ++ [.Create .route, .GetByName .route N]⟩))
              ∧ resourceKongRouteCreate h c cfg fmtV d w
                  = ⟨.ret (some ("could not read existing Kong service " ++ N ++ ": " ++ e2)),
                      d, ⟨r2, w.calls ++ [.Create .route, .GetByName .route N]⟩⟩)))
    ∧ (∀ (j : JsonCodec V) (c : PluginClient σ V) (fmtV : PluginRequest V → String)
        (req : PluginRequest V),
      createKongPluginRequestFromResourceData h j d = some (req, none) →
      (∀ budget, Retry (pluginCreateAttempt c cfg fmtV req) budget w
          = pluginCreateAttempt c cfg fmtV req w)
      ∧ createCount (resourceKongPluginCreate h j c cfg fmtV d w).w.calls
          = createCount w.calls + 1
      ∧ (∀ failed e r1, c.Create req w.remote = ((failed, some e), r1) →
          (cfg.upsertResources = false
            ∨ strContains e "unique constraint violation" = false →
            (∀ budget, Retry (pluginCreateAttempt c cfg fmtV req) budget w
                = (.fail ⟨"failed to create kong plugin: " ++ fmtV req ++ " error: " ++ e,
                      false⟩,
                    ⟨r1, w.calls ++ [.Create .plugin]⟩))
            ∧ resourceKongPluginCreate h j c cfg fmtV d w
                = ⟨.ret (some ("failed to create kong plugin: " ++ fmtV req ++ " error: " ++ e)),
                    d, ⟨r1, w.calls ++ [.Create .plugin]⟩⟩)
          ∧ (cfg.upsertResources = true →
            strContains e "unique constraint violation" = true →
            (∀ L e2 r2, c.List 1000 r1 = ((L, some e2), r2) →
              (∀ budget, Retry (pluginCreateAttempt c cfg fmtV req) budget w
                  = (.fail ⟨"could not read existing plugins: " ++ e2, false⟩,
                      ⟨r2, w.calls ++ [.Create .plugin, .List .plugin]⟩))
              ∧ resourceKongPluginCreate h j c cfg fmtV d w
                  = ⟨.ret (some ("could not read existing plugins: " ++ e2)), d,
                      ⟨r2, w.calls ++ [.Create .plugin, .List .plugin]⟩⟩)
            ∧ (∀ L r2, c.List 1000 r1 = ((L, none), r2) →
              scanPlugins req.Name req.ConsumerId req.RouteId req.ServiceId L = none →
              (∀ budget, Retry (pluginCreateAttempt c cfg fmtV req) budget w
                  = (.fail ⟨"could not find plugin with name " ++ req.Name, false⟩,
                      ⟨r2, w.calls ++ [.Create .plugin, .List .plugin]⟩))
              ∧ resourceKongPluginCreate h j c cfg fmtV d w
                  = ⟨.ret (some ("could not find plugin with name " ++ req.Name)), d,
                      ⟨r2, w.calls ++ [.Create .plugin, .List .plugin]⟩⟩)))) := by
  refine ⟨?_, ?_, ?_⟩
  · intro c fmtV N hname
    have hrun := Retry_service_of_flag_unset c cfg fmtV
      (createKongServiceRequestFromResourceData h d) w hretry
    refine ⟨hrun, resourceKongServiceCreate_createCount h c cfg fmtV d w N hretry hname, ?_⟩
    intro failed e r1 hcreate
    refine ⟨?_, ?_⟩
    · intro hno
      have hguard : (cfg.upsertResources && strContains e "unique constraint violation")
          = false := by
        rcases hno with hu | hc
        · simp [hu]
        · simp [hc]
      have hatt : serviceCreateAttempt c cfg fmtV
          (createKongServiceRequestFromResourceData h d) w
          = (.fail ⟨"failed to create kong service: "
                ++ fmtV (createKongServiceRequestFromResourceData h d)
                ++ " error: " ++ e, false⟩,
              ⟨r1, w.calls ++ [.Create .service]⟩) := by
        unfold serviceCreateAttempt
        simp [hname, hcreate, hguard, hretry, World.step]
      refine ⟨fun budget => by rw [hrun, hatt], ?_⟩
      simp [resourceKongServiceCreate, hrun, hatt]
    · intro hu hc
      refine ⟨?_, ?_⟩
      · intro x e2 r2 hlookup
        have hatt : serviceCreateAttempt c cfg fmtV
            (createKongServiceRequestFromResourceData h d) w
            = (.fail ⟨"could not read existing Kong service " ++ N ++ ": " ++ e2, false⟩,
                ⟨r2, w.calls ++ [.Create .service, .GetByName .service N]⟩) := by
          unfold serviceCreateAttempt
          simp [hname, hcreate, hu, hc, hretry, World.step, hlookup]
        refine ⟨fun budget => by rw [hrun, hatt], ?_⟩
        simp [resourceKongServiceCreate, hrun, hatt]
      · intro r2 hlookup
        have hatt : serviceCreateAttempt c cfg fmtV
            (createKongServiceRequestFromResourceData h d) w
            = (.panic, ⟨r2, w.calls ++ [.Create .service, .GetByName .service N]⟩) := by
          unfold serviceCreateAttempt
          simp [hname, hcreate, hu, hc, World.step, hlookup]
        simp [resourceKongServiceCreate, hrun, hatt]
  · intro c fmtV
    have hrun := Retry_route_of_flag_unset c cfg fmtV
      (createKongRouteRequestFromResourceData h d) w hretry
    refine ⟨hrun, resourceKongRouteCreate_createCount h c cfg fmtV d w hretry, ?_⟩
    intro failed e r1 hcreate
    refine ⟨?_, ?_⟩
    · intro hno
      have hguard : (cfg.upsertResources && strContains e "unique constraint violation")
          = false := by
        rcases hno with hu | hc
        · simp [hu]
        · simp [hc]
      have hatt : routeCreateAttempt c cfg fmtV
          (createKongRouteRequestFromResourceData h d) w
          = (.fail ⟨"failed to create kong route: "
                ++ fmtV (createKongRouteRequestFromResourceData h d)
                ++ " error: " ++ e, false⟩,
              ⟨r1, w.calls ++ [.Create .route]⟩) := by
        unfold routeCreateAttempt
        simp [hcreate, hguard, hretry, World.step]
      refine ⟨fun budget => by rw [hrun, hatt], ?_⟩
      simp [resourceKongRouteCreate, hrun, hatt]
    · intro hu hc N x e2 r2 hname hlookup
      have hatt : routeCreateAttempt c cfg fmtV
          (createKongRouteRequestFromResourceData h d) w
          = (.fail ⟨"could not read existing Kong service " ++ N ++ ": " ++ e2, false⟩,
              ⟨r2, w.calls ++ [.Create .route, .GetByName .route N]⟩) := by
        unfold routeCreateAttempt
        simp [hname, hcreate, hu, hc, hretry, World.step, hlookup]
      refine ⟨fun budget => by rw [hrun, hatt], ?_⟩
      simp [resourceKongRouteCreate, hrun, hatt]
  · intro j c fmtV req hreq
    have hrun := Retry_plugin_of_flag_unset c cfg fmtV req w hretry
    refine ⟨hrun, resourceKongPluginCreate_createCount h j c cfg fmtV d w req hretry hreq, ?_⟩
    intro failed e r1 hcreate
    refine ⟨?_, ?_⟩
    · intro hno
      have hguard : (cfg.upsertResources && strContains e "unique constraint violation")
          = false := by
        rcases hno with hu | hc
        · simp [hu]
        · simp [hc]
      have hatt : pluginCreateAttempt c cfg fmtV req w
          = (.fail ⟨"failed to create kong plugin: " ++ fmtV req ++ " error: " ++ e, false⟩,
              ⟨r1, w.calls ++ [.Create .plugin]⟩) := by
        unfold pluginCreateAttempt
        simp [hcreate, hguard, hretry, World.step]
      refine ⟨fun budget => by rw [hrun, hatt], ?_⟩
      simp [resourceKongPluginCreate, hreq, hrun, hatt]
    · intro hu hc
      refine ⟨?_, ?_⟩
      · intro L e2 r2 hlist
        have hatt : pluginCreateAttempt c cfg fmtV req w
            = (.fail ⟨"could not read existing plugins: " ++ e2, false⟩,
                ⟨r2, w.calls ++ [.Create .plugin, .List .plugin]⟩) := by
          unfold pluginCreateAttempt
          simp [hcreate, hu, hc, hretry, World.step, findPlugin, hlist]
        refine ⟨fun budget => by rw [hrun, hatt], ?_⟩
        simp [resourceKongPluginCreate, hreq, hrun, hatt]
      · intro L r2 hlist hscan
        have hatt : pluginCreateAttempt c cfg fmtV req w
            = (.fail ⟨"could not find plugin with name " ++ req.Name, false⟩,
                ⟨r2, w.calls ++ [.Create .plugin, .List .plugin]⟩) := by
          unfold pluginCreateAttempt
          simp [hcreate, hu, hc, hretry, World.step, findPlugin, hlist, hscan]
        refine ⟨fun budget => by rw [hrun, hatt], ?_⟩
        simp [resourceKongPluginCreate, hreq, hrun, hatt]

/-- C3, on scripted clients under a timeout that leaves room for three
further attempts: a service whose `Create` is refused, a route whose
adoption lookup times out, and a plugin whose adoption lookup finds no
match.  Each Create returns the first failure. -/
theorem C3_no_retry_when_flag_unset_witness :
    resourceKongServiceCreate storedReaders
        (scriptedServices (none, some "connection refused") (none, none) (none, none)
          (none, none) none)
        upsertConfig (fun _ => "req") ⟨"", [("name", .str "test")]⟩ World.start
      = ⟨.ret (some ("failed to create kong service: " ++ "req" ++ " error: "
            ++ "connection refused")),
          ⟨"", [("name", .str "test")]⟩, ⟨(), [] ++ [.Create .service]⟩⟩
    ∧ resourceKongRouteCreate storedReaders
        (scriptedRoutes (none, some "409: unique constraint violation")
          (none, some "timeout") (none, none) (none, none) none)
        upsertConfig (fun _ => "req") ⟨"", [("name", .str "test")]⟩ World.start
      = ⟨.ret (some ("could not read existing Kong service " ++ "test" ++ ": " ++ "timeout")),
          ⟨"", [("name", .str "test")]⟩,
          ⟨(), [] ++ [.Create .route, .GetByName .route "test"]⟩⟩
    ∧ resourceKongPluginCreate storedReaders textCodec
        (scriptedPlugins (none, some "409: unique constraint violation") ([], none)
          (none, none) (none, none) none)
        upsertConfig (fun _ => "req") ⟨"", [("name", .str "rate-limiting")]⟩ World.start
      = ⟨.ret (some ("could not find plugin with name " ++ "rate-limiting")),
          ⟨"", [("name", .str "rate-limiting")]⟩,
          ⟨(), [] ++ [.Create .plugin, .List .plugin]⟩⟩ := by
  have key := C3_no_retry_when_flag_unset (σ := Unit) (V := String) storedReaders
    upsertConfig
  refine ⟨?_, ?_, ?_⟩
  · exact (((key ⟨"", [("name", .str "test")]⟩ World.start rfl).1
      (scriptedServices (none, some "connection refused") (none, none) (none, none)
        (none, none) none)
      (fun _ => "req") "test" (by decide)).2.2 none "connection refused" () rfl).1
      (Or.inr (by decide)) |>.2
  · exact (((key ⟨"", [("name", .str "test")]⟩ World.start rfl).2.1
      (scriptedRoutes (none, some "409: unique constraint violation")
        (none, some "timeout") (none, none) (none, none) none)
      (fun _ => "req")).2.2 none "409: unique constraint violation" () rfl).2
      rfl (by decide) "test" none "timeout" () (by decide) rfl |>.2
  · exact ((((key ⟨"", [("name", .str "rate-limiting")]⟩ World.start rfl).2.2
      textCodec
      (scriptedPlugins (none, some "409: unique constraint violation") ([], none)
        (none, none) (none, none) none)
      (fun _ => "req") ⟨"rate-limiting", none, none, none, [], none⟩ rfl).2.2
      none "409: unique constraint violation" () rfl).2 rfl (by decide)).2 [] () rfl rfl |>.2

/-! ## C4: route adoption -/

/-- C4. Route adoption, as the code runs it.  With `upsert_resources`
enabled, `Create` failing with a unique-constraint violation and returning
no route, and `GetByName(N)` returning an existing route with identifier
`I`: the function given to the retry loop looks the route up and then reads
the identifier from the nil result of the failed `Create`, so it panics;
`resourceKongRouteCreate` does not return, performs no read-back, and the
resource identifier is not set to `I`. -/
theorem C4_route_adoption_panics {σ : Type} (h : Readers) (c : RouteClient σ) (cfg : config)
    (fmtV : RouteRequest → String) (d : ResourceData) (w : World σ)
    (N I e : String) (existing : Route) (r1 r2 : σ)
    (hname : (createKongRouteRequestFromResourceData h d).Name = some N)
    (hupsert : cfg.upsertResources = true)
    (hcreate : c.Create (createKongRouteRequestFromResourceData h d) w.remote
      = ((none, some e), r1))
    (hconflict : strContains e "unique constraint violation" = true)
    (hlookup : c.GetByName N r1 = ((some existing, none), r2))
    (hid : existing.Id = some I) :
    routeCreateAttempt c cfg fmtV (createKongRouteRequestFromResourceData h d) w
      = (.panic, ⟨r2, w.calls ++ [.Create .route, .GetByName .route N]⟩)
    ∧ (resourceKongRouteCreate h c cfg fmtV d w).out = .panic
    ∧ (resourceKongRouteCreate h c cfg fmtV d w).d = d
    ∧ (resourceKongRouteCreate h c cfg fmtV d w).w.calls
      = w.calls ++ [.Create .route, .GetByName .route N] := by
  have hatt : routeCreateAttempt c cfg fmtV (createKongRouteRequestFromResourceData h d) w
      = (.panic, ⟨r2, w.calls ++ [.Create .route, .GetByName .route N]⟩) := by
    unfold routeCreateAttempt
    simp [hname, hcreate, hupsert, hconflict, World.step, hlookup, hid]
  have hrun : Retry (routeCreateAttempt c cfg fmtV
      (createKongRouteRequestFromResourceData h d)) cfg.retryTimeout w
      = (.panic, ⟨r2, w.calls ++ [.Create .route, .GetByName .route N]⟩) := by
    rw [Retry_eq_of_not_retryable _ _ _ (by rw [hatt]; intro e1 he1; cases he1), hatt]
  refine ⟨hatt, ?_, ?_, ?_⟩ <;> simp [resourceKongRouteCreate, hrun]

/-- C4, at the failing input: the route "test" exists remotely under the
identifier "route-1", the desired route is named "test", upsert is enabled,
and `Create` answers with the conflict and no route.  Create panics and the
identifier stays empty. -/
theorem C4_route_adoption_panics_witness :
    (resourceKongRouteCreate storedReaders
        (scriptedRoutes (none, some "409: unique constraint violation")
          (some { Route.empty with Id := some "route-1", Name := some "test" }, none)
          (some { Route.empty with Id := some "route-1", Name := some "test" }, none)
          (none, none) none)
        upsertConfig (fun _ => "req")
        ⟨"", [("name", .str "test")]⟩ World.start).out = .panic
    ∧ (resourceKongRouteCreate storedReaders
        (scriptedRoutes (none, some "409: unique constraint violation")
          (some { Route.empty with Id := some "route-1", Name := some "test" }, none)
          (some { Route.empty with Id := some "route-1", Name := some "test" }, none)
          (none, none) none)
        upsertConfig (fun _ => "req")
        ⟨"", [("name", .str "test")]⟩ World.start).d.id = "" := by
  have key := C4_route_adoption_panics storedReaders
    (scriptedRoutes (none, some "409: unique constraint violation")
      (some { Route.empty with Id := some "route-1", Name := some "test" }, none)
      (some { Route.empty with Id := some "route-1", Name := some "test" }, none)
      (none, none) none)
    upsertConfig (fun _ => "req")
    ⟨"", [("name", .str "test")]⟩ World.start "test" "route-1"
    "409: unique constraint violation"
    { Route.empty with Id := some "route-1", Name := some "test" } () ()
    (by decide) rfl rfl (by decide) rfl rfl
  exact ⟨key.2.1, by rw [key.2.2.1]⟩

/-! ## C5: the adoption lookup of plugins -/

theorem scanPlugins_eq_find {V : Type} (name : String)
    (consumerId routeId serviceId : Option String) (l : List (Plugin V)) :
    scanPlugins name consumerId routeId serviceId l
      = l.find? (pluginMatches name consumerId routeId serviceId) := by
  induction l with
  | nil => rfl
  | cons p rest ih =>
    unfold scanPlugins
    by_cases hp : pluginMatches name consumerId routeId serviceId p = true
    · simp [hp]
    · simp [hp, ih]

/-- C5. Plugin adoption lookup.  When the plugin client's `List` returns the
list `L`, `findPlugin` returns a plugin `p` exactly when `p` is the first
element of `L`, at whatever position (the last included), whose name and
whose consumer, route and service ids under `IdToString` all equal the
request's; a nil id reads as the empty string on both sides.  It returns an
error exactly when no element of `L` matches all four fields, and a plugin
it returns never differs from the request in any of the four. -/
theorem C5_findPlugin_first_match {σ V : Type} (c : PluginClient σ V) (name : String)
    (consumerId routeId serviceId : Option String) (w : World σ)
    (L : List (Plugin V)) (r : σ)
    (hlist : c.List 1000 w.remote = ((L, none), r)) :
    (∀ p, (findPlugin c name consumerId routeId serviceId w).1 = (some p, none) ↔
        ∃ before after, L = before ++ p :: after
          ∧ pluginMatches name consumerId routeId serviceId p = true
          ∧ ∀ q ∈ before, pluginMatches name consumerId routeId serviceId q = false)
    ∧ ((findPlugin c name consumerId routeId serviceId w).1.2 ≠ none ↔
        ∀ q ∈ L, pluginMatches name consumerId routeId serviceId q = false)
    ∧ (∀ p, (findPlugin c name consumerId routeId serviceId w).1.1 = some p →
        p ∈ L ∧ p.Name = name
        ∧ IdToString p.ConsumerId = IdToString consumerId
        ∧ IdToString p.RouteId = IdToString routeId
        ∧ IdToString p.ServiceId = IdToString serviceId)
    ∧ IdToString (none : Option String) = ""
    ∧ (findPlugin c name consumerId routeId serviceId w).2.calls
        = w.calls ++ [.List .plugin] := by
  have hfind : (findPlugin c name consumerId routeId serviceId w).1
      = match L.find? (pluginMatches name consumerId routeId serviceId) with
        | some p => (some p, none)
        | none => (none, some ("could not find plugin with name " ++ name)) := by
    unfold findPlugin
    rw [hlist]
    simp only [scanPlugins_eq_find]
    cases L.find? (pluginMatches name consumerId routeId serviceId) <;> rfl
  refine ⟨?_, ?_, ?_, rfl, findPlugin_calls c name consumerId routeId serviceId w⟩
  · intro p
    rw [hfind]
    cases hf : L.find? (pluginMatches name consumerId routeId serviceId) with
    | none =>
      simp only [Prod.mk.injEq, reduceCtorEq, false_and, false_iff, not_exists, not_and]
      intro before after hL hm
      rw [List.find?_eq_none] at hf
      have := hf p (by rw [hL]; simp)
      exact absurd hm this
    | some q =>
      simp only [Prod.mk.injEq, Option.some.injEq, and_true]
      constructor
      · intro hq
        subst hq
        rw [List.find?_eq_some] at hf
        obtain ⟨hm, before, after, hL, hbefore⟩ := hf
        exact ⟨before, after, hL, hm, fun x hx => by simpa using hbefore x hx⟩
      · rintro ⟨before, after, hL, hm, hbefore⟩
        have hp : L.find? (pluginMatches name consumerId routeId serviceId) = some p := by
          rw [List.find?_eq_some]
          exact ⟨hm, before, after, hL, fun x hx => by simp [hbefore x hx]⟩
        rw [hf] at hp
        exact Option.some.inj hp
  · rw [hfind]
    cases hf : L.find? (pluginMatches name consumerId routeId serviceId) with
    | none =>
      rw [List.find?_eq_none] at hf
      simp only [ne_eq, reduceCtorEq, not_false_eq_true, true_iff]
      intro q hq
      simpa using hf q hq
    | some q =>
      simp only [ne_eq, not_true_eq_false, false_iff, not_forall]
      have hq := List.find?_some hf
      exact ⟨q, List.mem_of_find?_eq_some hf, by simp [hq]⟩
  · intro p hp
    rw [hfind] at hp
    cases hf : L.find? (pluginMatches name consumerId routeId serviceId) with
    | none => rw [hf] at hp; simp at hp
    | some q =>
      rw [hf] at hp
      simp only [Option.some.injEq] at hp
      subst hp
      have hq := List.find?_some hf
      simp only [pluginMatches, Bool.and_eq_true, decide_eq_true_eq] at hq
      exact ⟨List.mem_of_find?_eq_some hf, hq.1.1.1, hq.1.1.2, hq.1.2, hq.2⟩

/-- C5, on a scripted plugin client: the target is the last of three plugins
listed and has no consumer and no route, like the request. -/
theorem C5_findPlugin_first_match_witness :
    (findPlugin
        (scriptedPlugins (V := String) (none, some "409: unique constraint violation")
          ([⟨"p-1", "cors", some "svc-1", none, none, [], true⟩,
            ⟨"p-2", "rate-limiting", some "svc-2", none, none, [], true⟩,
            ⟨"p-3", "rate-limiting", some "svc-1", none, none, [], true⟩], none)
          (none, none) (none, none) none)
        "rate-limiting" none none (some "svc-1") World.start).1
      = (some ⟨"p-3", "rate-limiting", some "svc-1", none, none, [], true⟩, none) := by
  have key := (C5_findPlugin_first_match
    (scriptedPlugins (V := String) (none, some "409: unique constraint violation")
      ([⟨"p-1", "cors", some "svc-1", none, none, [], true⟩,
        ⟨"p-2", "rate-limiting", some "svc-2", none, none, [], true⟩,
        ⟨"p-3", "rate-limiting", some "svc-1", none, none, [], true⟩], none)
      (none, none) (none, none) none)
    "rate-limiting" none none (some "svc-1") World.start _ () rfl).1
    ⟨"p-3", "rate-limiting", some "svc-1", none, none, [], true⟩
  refine key.mpr ⟨[⟨"p-1", "cors", some "svc-1", none, none, [], true⟩,
    ⟨"p-2", "rate-limiting", some "svc-2", none, none, [], true⟩], [], rfl, by decide, ?_⟩
  intro q hq
  simp only [List.mem_cons, List.mem_singleton, List.not_mem_nil, or_false] at hq
  rcases hq with rfl | rfl <;> decide

/-! ## C6 and C7: the canonical form of a plugin configuration -/

theorem contains_iff (s : List String) (e : String) : contains s e = true ↔ e ∈ s := by
  induction s with
  | nil => simp [contains]
  | cons a s ih =>
    unfold contains
    by_cases hae : a = e
    · simp [hae]
    · simp [hae, ih, Ne.symm hae]

theorem mapAssign_of_not_mem {α : Type} (key : String) (v : α) (m : List (String × α))
    (hk : key ∉ mapKeys m) : mapAssign key v m = m ++ [(key, v)] := by
  induction m with
  | nil => rfl
  | cons p rest ih =>
    obtain ⟨k, x⟩ := p
    simp only [mapKeys, List.map_cons, List.mem_cons, not_or] at hk
    have hne : ¬ k = key := fun hkk => hk.1 hkk.symm
    simp [mapAssign, hne, ih hk.2]

theorem stripComputed_eq_filter {V : Type} (acc data : List (String × V))
    (hnodup : (mapKeys (acc ++ data)).Nodup) :
    stripComputed acc data = acc ++ data.filter keptEntry := by
  induction data generalizing acc with
  | nil => simp [stripComputed]
  | cons p rest ih =>
    obtain ⟨k, x⟩ := p
    unfold stripComputed
    by_cases hk : contains computedPluginProperties k = true
    · have hnodup2 : (mapKeys (acc ++ rest)).Nodup := by
        simp only [mapKeys, List.map_append, List.map_cons] at hnodup ⊢
        exact hnodup.sublist (List.Sublist.append (List.Sublist.refl _) (List.sublist_cons_self _ _))
      simp [hk, keptEntry, ih acc hnodup2]
    · have hkacc : k ∉ mapKeys acc := by
        simp only [mapKeys, List.map_append, List.map_cons] at hnodup ⊢
        intro hmem
        have := (List.nodup_append.1 hnodup).2.2
        exact this hmem (List.mem_cons_self _ _)
      have hnodup2 : (mapKeys ((acc ++ [(k, x)]) ++ rest)).Nodup := by
        simpa [mapKeys] using hnodup
      simp only [Bool.not_eq_true] at hk
      simp [hk, keptEntry, mapAssign_of_not_mem k x acc hkacc, ih _ hnodup2]

theorem stripComputed_filter_computed {V : Type} (S : List String)
    (hS : ∀ k ∈ S, k ∈ computedPluginProperties) (acc data : List (String × V)) :
    stripComputed acc (data.filter (fun p => decide (p.1 ∉ S))) = stripComputed acc data := by
  induction data generalizing acc with
  | nil => rfl
  | cons p rest ih =>
    obtain ⟨k, x⟩ := p
    by_cases hk : k ∈ S
    · have hc : contains computedPluginProperties k = true := (contains_iff _ _).2 (hS k hk)
      rw [List.filter_cons_of_neg (by simpa using hk), ih]
      conv_rhs => unfold stripComputed
      simp [hc]
    · rw [List.filter_cons_of_pos (by simpa using hk)]
      unfold stripComputed
      split
      · exact ih _
      · exact ih _

theorem eq_of_perm_of_keys_eq {V : Type} (l l2 : List (String × V))
    (hperm : l.Perm l2) (hkeys : mapKeys l = mapKeys l2) (hnodup : (mapKeys l).Nodup) :
    l = l2 := by
  induction l generalizing l2 with
  | nil => exact (List.Perm.nil_eq hperm)
  | cons a t ih =>
    cases l2 with
    | nil => exact absurd hperm.length_eq (by simp)
    | cons b t2 =>
      simp only [mapKeys, List.map_cons, List.cons.injEq] at hkeys
      simp only [mapKeys, List.map_cons, List.nodup_cons] at hnodup
      have hab : a = b := by
        have hmem : a ∈ b :: t2 := hperm.subset (List.mem_cons_self _ _)
        rcases List.mem_cons.1 hmem with hab | hat
        · exact hab
        · exfalso
          apply hnodup.1
          rw [hkeys.2]
          exact List.mem_map_of_mem _ hat
      subst hab
      rw [ih t2 (List.Perm.cons_inv hperm) hkeys.2 hnodup.2]

theorem sort_eq_of_perm {V : Type} (l l2 : List (String × V))
    (hperm : l.Perm l2) (hnodup : (mapKeys l).Nodup) :
    l.insertionSort keyLE = l2.insertionSort keyLE := by
  have hp : (l.insertionSort keyLE).Perm (l2.insertionSort keyLE) :=
    ((List.perm_insertionSort keyLE l).trans hperm).trans (List.perm_insertionSort keyLE l2).symm
  have hs1 : (mapKeys (l.insertionSort keyLE)).Sorted (· ≤ ·) := by
    have := List.sorted_insertionSort (keyLE (V := V)) l
    exact List.pairwise_map.2 this
  have hs2 : (mapKeys (l2.insertionSort keyLE)).Sorted (· ≤ ·) := by
    have := List.sorted_insertionSort (keyLE (V := V)) l2
    exact List.pairwise_map.2 this
  refine eq_of_perm_of_keys_eq _ _ hp
    (List.eq_of_perm_of_sorted (hp.map Prod.fst) hs1 hs2) ?_
  exact (((List.perm_insertionSort keyLE l).map Prod.fst).nodup_iff).2 hnodup

/-- C6. Canonical form stability.  For a configuration mapping (a list of
entries with distinct keys, in any iteration order) and any reordering of
its entries, `pluginConfigJsonToString` returns the same string: the output
depends on the set of key/value pairs only.  The members are emitted in
ascending order of their keys. -/
theorem C6_canonical_form_order_independent {V : Type} (j : JsonCodec V)
    (m1 m2 : List (String × V))
    (hmap : (mapKeys m1).Nodup)
    (hperm : m1.Perm m2) :
    pluginConfigJsonToString j m1 = pluginConfigJsonToString j m2
    ∧ (mapKeys ((stripComputed [] m1).insertionSort keyLE)).Sorted (· ≤ ·)
    ∧ pluginConfigJsonToString j m1
      = "\x7b" ++ ",".intercalate
          (((stripComputed [] m1).insertionSort keyLE).map
            (fun p => j.quote p.1 ++ ":" ++ j.value p.2)) ++ "\x7d" := by
  have hmap2 : (mapKeys m2).Nodup := ((hperm.map Prod.fst).nodup_iff).1 hmap
  have h1 : stripComputed [] m1 = m1.filter keptEntry := by
    simpa using stripComputed_eq_filter [] m1 (by simpa using hmap)
  have h2 : stripComputed [] m2 = m2.filter keptEntry := by
    simpa using stripComputed_eq_filter [] m2 (by simpa using hmap2)
  have hnd : (mapKeys (m1.filter keptEntry)).Nodup :=
    hmap.sublist ((List.filter_sublist m1).map Prod.fst)
  refine ⟨?_, ?_, rfl⟩
  · unfold pluginConfigJsonToString jsonMarshalMap
    rw [h1, h2, sort_eq_of_perm _ _ (hperm.filter keptEntry) hnd]
  · exact List.pairwise_map.2 (List.sorted_insertionSort (keyLE (V := V)) _)

/-- C6, on the same two entries inserted in either order. -/
theorem C6_canonical_form_order_independent_witness :
    pluginConfigJsonToString textCodec [("minute", "5"), ("hour", "100")]
      = pluginConfigJsonToString textCodec [("hour", "100"), ("minute", "5")] :=
  (C6_canonical_form_order_independent textCodec
    [("minute", "5"), ("hour", "100")] [("hour", "100"), ("minute", "5")]
    (by decide) (List.Perm.swap _ _ _)).1

/-- C7. Computed-key stripping.  For a configuration mapping `m` (entries
with distinct keys): removing from `m` the entries of any set `S` of keys
taken among `created_at`, `id`, `consumer`, `service` and `route` does not
change `pluginConfigJsonToString`; the object serialized is `m` without the
entries under those five keys, so none of the five is a key of it, and for
any other key an entry `(k, v)` is in it exactly when it is in `m`. -/
theorem C7_computed_keys_stripped {V : Type} (j : JsonCodec V) (m : List (String × V))
    (hmap : (mapKeys m).Nodup) :
    (∀ S : List String, (∀ k ∈ S, k ∈ computedPluginProperties) →
        pluginConfigJsonToString j (m.filter (fun p => decide (p.1 ∉ S)))
          = pluginConfigJsonToString j m)
    ∧ pluginConfigJsonToString j m = jsonMarshalMap j (stripComputed [] m)
    ∧ stripComputed [] m
        = m.filter (fun p => decide (p.1 ∉ ["created_at", "id", "consumer", "service", "route"]))
    ∧ (∀ k ∈ ["created_at", "id", "consumer", "service", "route"],
        k ∉ mapKeys (stripComputed [] m))
    ∧ (∀ k v, k ∉ ["created_at", "id", "consumer", "service", "route"] →
        ((k, v) ∈ stripComputed [] m ↔ (k, v) ∈ m)) := by
  have hstrip : stripComputed [] m = m.filter keptEntry := by
    simpa using stripComputed_eq_filter [] m (by simpa using hmap)
  have hkept : ∀ p : String × V,
      keptEntry p = decide (p.1 ∉ ["created_at", "id", "consumer", "service", "route"]) := by
    intro p
    unfold keptEntry
    by_cases hp : p.1 ∈ computedPluginProperties
    · have hc := (contains_iff _ _).2 hp
      simp only [computedPluginProperties] at hp
      simp [hc, hp]
    · have hc : contains computedPluginProperties p.1 = false := by
        cases hcc : contains computedPluginProperties p.1 with
        | false => rfl
        | true => exact absurd ((contains_iff _ _).1 hcc) hp
      simp only [computedPluginProperties] at hp
      simp [hc, hp]
  have hfilter : m.filter keptEntry
      = m.filter (fun p => decide (p.1 ∉ ["created_at", "id", "consumer", "service", "route"])) :=
    List.filter_congr (fun p _ => hkept p)
  refine ⟨?_, rfl, hstrip.trans hfilter, ?_, ?_⟩
  · intro S hS
    unfold pluginConfigJsonToString
    rw [stripComputed_filter_computed S hS]
  · intro k hk hmem
    rw [hstrip, hfilter] at hmem
    simp only [mapKeys, List.mem_map, List.mem_filter, decide_eq_true_eq] at hmem
    obtain ⟨p, ⟨_, hp⟩, hpk⟩ := hmem
    exact hp (hpk ▸ hk)
  · intro k v hk
    rw [hstrip, hfilter]
    simp only [List.mem_filter, decide_eq_true_eq]
    exact ⟨fun hkv => hkv.1, fun hkv => ⟨hkv, hk⟩⟩

/-- C7, on a configuration echoed by Kong with its `id` and `route`:
dropping `id` beforehand gives the same text. -/
theorem C7_computed_keys_stripped_witness :
    pluginConfigJsonToString textCodec
        ([("id", "\"x\""), ("minute", "5"), ("route", "null")].filter
          (fun p => decide (p.1 ∉ ["id"])))
      = pluginConfigJsonToString textCodec [("id", "\"x\""), ("minute", "5"), ("route", "null")] :=
  (C7_computed_keys_stripped textCodec [("id", "\"x\""), ("minute", "5"), ("route", "null")]
    (by decide)).1 ["id"] (by decide)

/-- The text produced for a configuration with two computed keys. -/
theorem pluginConfigJsonToString_example :
    pluginConfigJsonToString textCodec
        [("second", "1"), ("id", "\"x\""), ("minute", "5"), ("route", "null")]
      = "\x7b\"minute\":5,\"second\":1\x7d" := by
  simp [pluginConfigJsonToString, stripComputed, contains, computedPluginProperties, mapAssign,
    jsonMarshalMap, List.insertionSort, List.orderedInsert, keyLE, textCodec]
  decide

/-! ## C8: strict and lenient capture of the remote configuration -/

theorem find_mapAssign_same {α : Type} (key : String) (v : α) (m : List (String × α)) :
    ((mapAssign key v m).find? (fun p => decide (p.1 = key))).map Prod.snd = some v := by
  induction m with
  | nil => simp [mapAssign]
  | cons p rest ih =>
    obtain ⟨k, x⟩ := p
    by_cases hk : k = key
    · simp [mapAssign, hk]
    · simp [mapAssign, hk, List.find?_cons, ih]

theorem find_mapAssign_ne {α : Type} (key other : String) (v : α) (m : List (String × α))
    (hne : key ≠ other) :
    ((mapAssign key v m).find? (fun p => decide (p.1 = other))).map Prod.snd
      = (m.find? (fun p => decide (p.1 = other))).map Prod.snd := by
  induction m with
  | nil => simp [mapAssign, hne]
  | cons p rest ih =>
    obtain ⟨k, x⟩ := p
    by_cases hk : k = key
    · subst hk
      simp [mapAssign, List.find?_cons, hne]
    · by_cases hko : k = other
      · subst hko
        simp [mapAssign, hk, List.find?_cons]
      · simp [mapAssign, hk, List.find?_cons, hko, ih]

theorem Get_Set_same (d : ResourceData) (key : String) (v : Value) :
    (d.Set key v).Get key = some v := by
  simp only [ResourceData.Get, ResourceData.Set]
  exact find_mapAssign_same key v d.attrs

theorem Get_Set_ne (d : ResourceData) (key other : String) (v : Value) (hne : key ≠ other) :
    (d.Set key v).Get other = d.Get other := by
  simp only [ResourceData.Get, ResourceData.Set]
  exact find_mapAssign_ne key other v d.attrs hne

theorem setPluginFields_strict_match {V : Type} (d : ResourceData) (plugin : Plugin V) :
    (setPluginFields d plugin).Get "strict_match" = d.Get "strict_match" := by
  unfold setPluginFields
  simp only []
  rw [Get_Set_ne _ _ _ _ (by decide), Get_Set_ne _ _ _ _ (by decide),
    Get_Set_ne _ _ _ _ (by decide), Get_Set_ne _ _ _ _ (by decide),
    Get_Set_ne _ _ _ _ (by decide)]

/-- C8, as the code has it.  In `resourceKongPluginRead` the normalized
remote configuration is written to `config_json` (and `computed_config` is
left as it was) when the effective mode is strict, and to `computed_config`
(and `config_json` is left as it was) when it is lenient.  The effective
mode is strict when the instance sets `strict_match` to true; when it is set
to false, or not set at all, the effective mode is the process-wide
`strict_plugins_match` default. -/
theorem C8_strict_match_selection {V : Type} (j : JsonCodec V) (cfg : config)
    (d : ResourceData) (plugin : Plugin V) :
    (d.Get "strict_match" = some (.bool true) →
        pluginToResourceData j cfg d plugin
          = some (setConfig (setPluginFields d plugin)
              (pluginConfigJsonToString j plugin.Config) true))
    ∧ (d.Get "strict_match" = some (.bool false) ∨ d.Get "strict_match" = none →
        pluginToResourceData j cfg d plugin
          = some (setConfig (setPluginFields d plugin)
              (pluginConfigJsonToString j plugin.Config) cfg.strictPlugins))
    ∧ (∀ (d0 : ResourceData) (u : String),
        (setConfig d0 u true).Get "config_json" = some (.str u)
        ∧ (setConfig d0 u true).Get "computed_config" = d0.Get "computed_config"
        ∧ (setConfig d0 u false).Get "computed_config" = some (.str u)
        ∧ (setConfig d0 u false).Get "config_json" = d0.Get "config_json") := by
  refine ⟨?_, ?_, ?_⟩
  · intro hset
    unfold pluginToResourceData
    simp only [ResourceData.GetOk, setPluginFields_strict_match, hset]
    rfl
  · intro hset
    unfold pluginToResourceData
    rcases hset with hset | hset <;>
      simp only [ResourceData.GetOk, setPluginFields_strict_match, hset] <;> rfl
  · intro d0 u
    refine ⟨?_, ?_, ?_, ?_⟩
    · simp only [setConfig, if_true]
      exact Get_Set_same _ _ _
    · simp only [setConfig, if_true]
      exact Get_Set_ne _ _ _ _ (by decide)
    · simp only [setConfig, Bool.false_eq_true, if_false]
      exact Get_Set_same _ _ _
    · simp only [setConfig, Bool.false_eq_true, if_false]
      exact Get_Set_ne _ _ _ _ (by decide)

/-- C8, on an instance that sets `strict_match = true` under a lenient
process-wide default. -/
theorem C8_strict_match_selection_witness :
    pluginToResourceData textCodec defaultConfig
        ⟨"p-1", [("strict_match", .bool true)]⟩
        ⟨"p-1", "rate-limiting", none, none, none, [("minute", "5")], true⟩
      = some (setConfig
          (setPluginFields ⟨"p-1", [("strict_match", .bool true)]⟩
            (⟨"p-1", "rate-limiting", none, none, none, [("minute", "5")], true⟩ : Plugin String))
          (pluginConfigJsonToString textCodec [("minute", "5")]) true) :=
  (C8_strict_match_selection textCodec defaultConfig
    ⟨"p-1", [("strict_match", .bool true)]⟩
    ⟨"p-1", "rate-limiting", none, none, none, [("minute", "5")], true⟩).1 (by decide)

/-- C8 fails as stated: an instance that sets `strict_match = false`
explicitly, under the process-wide default `strict_plugins_match = true`,
is read in strict mode: the remote configuration goes to `config_json` and
`computed_config` is not written. -/
theorem C8_explicit_false_falls_back_to_default :
    (⟨"p-1", [("strict_match", .bool false)]⟩ : ResourceData).Get "strict_match"
      = some (.bool false)
    ∧ ((resourceKongPluginRead textCodec
        (scriptedPlugins (none, none) ([], none)
          (some ⟨"p-1", "rate-limiting", none, none, none, [("minute", "5")], true⟩, none)
          (none, none) none)
        strictConfig
        ⟨"p-1", [("strict_match", .bool false)]⟩ World.start).d.Get "config_json"
      = some (.str "\x7b\"minute\":5\x7d"))
    ∧ ((resourceKongPluginRead textCodec
        (scriptedPlugins (none, none) ([], none)
          (some ⟨"p-1", "rate-limiting", none, none, none, [("minute", "5")], true⟩, none)
          (none, none) none)
        strictConfig
        ⟨"p-1", [("strict_match", .bool false)]⟩ World.start).d.Get "computed_config"
      = none) := by
  refine ⟨by decide, by decide, by decide⟩

/-! ## C9 and C10: the outcomes of Read, alone and as the read-back of Create -/

theorem resourceKongServiceRead_absent {σ : Type} (c : ServiceClient σ) (d : ResourceData)
    (w : World σ) (r : σ) (hget : c.GetServiceById d.id w.remote = ((none, none), r)) :
    resourceKongServiceRead c d w
      = ⟨.ret none, { d with id := "" }, ⟨r, w.calls ++ [.GetById .service d.id]⟩⟩ := by
  simp [resourceKongServiceRead, ResourceData.Id, hget, World.step, ResourceData.SetId]

theorem resourceKongServiceRead_error {σ : Type} (c : ServiceClient σ) (d : ResourceData)
    (w : World σ) (r : σ) (x : Option Service) (err : String)
    (hget : c.GetServiceById d.id w.remote = ((x, some err), r)) :
    resourceKongServiceRead c d w
      = ⟨.ret (some ("could not find kong service: " ++ err)), d,
          ⟨r, w.calls ++ [.GetById .service d.id]⟩⟩ := by
  simp [resourceKongServiceRead, ResourceData.Id, hget, World.step]

theorem resourceKongRouteRead_absent {σ : Type} (c : RouteClient σ) (d : ResourceData)
    (w : World σ) (r : σ) (hget : c.GetById d.id w.remote = ((none, none), r)) :
    resourceKongRouteRead c d w
      = ⟨.ret none, { d with id := "" }, ⟨r, w.calls ++ [.GetById .route d.id]⟩⟩ := by
  simp [resourceKongRouteRead, ResourceData.Id, hget, World.step, ResourceData.SetId]

theorem resourceKongRouteRead_error {σ : Type} (c : RouteClient σ) (d : ResourceData)
    (w : World σ) (r : σ) (x : Option Route) (err : String)
    (hget : c.GetById d.id w.remote = ((x, some err), r)) :
    resourceKongRouteRead c d w
      = ⟨.ret (some ("could not find kong route: " ++ err)), d,
          ⟨r, w.calls ++ [.GetById .route d.id]⟩⟩ := by
  simp [resourceKongRouteRead, ResourceData.Id, hget, World.step]

theorem resourceKongPluginRead_absent {σ V : Type} (j : JsonCodec V) (c : PluginClient σ V)
    (cfg : config) (d : ResourceData) (w : World σ) (r : σ)
    (hget : c.GetById d.id w.remote = ((none, none), r)) :
    resourceKongPluginRead j c cfg d w
      = ⟨.ret none, { d with id := "" }, ⟨r, w.calls ++ [.GetById .plugin d.id]⟩⟩ := by
  simp [resourceKongPluginRead, ResourceData.Id, hget, World.step, ResourceData.SetId]

theorem resourceKongPluginRead_error {σ V : Type} (j : JsonCodec V) (c : PluginClient σ V)
    (cfg : config) (d : ResourceData) (w : World σ) (r : σ) (x : Option (Plugin V))
    (err : String) (hget : c.GetById d.id w.remote = ((x, some err), r)) :
    resourceKongPluginRead j c cfg d w
      = ⟨.ret (some ("could not find kong plugin: " ++ err)), d,
          ⟨r, w.calls ++ [.GetById .plugin d.id]⟩⟩ := by
  simp [resourceKongPluginRead, ResourceData.Id, hget, World.step]

/-- C9. Read outcome classification, for service, route and plugin.  If the
client's get-by-id returns no record and no error, Read sets the tracked
identifier to the empty string, leaves every attribute as it was and
returns no error.  If the client returns an error, Read returns an error
(carrying the client's text) and leaves identifier and attributes as they
were.  In both cases the get-by-id is the only call made. -/
theorem C9_read_outcomes {σ V : Type} (d : ResourceData) (w : World σ) (r : σ) :
    (∀ c : ServiceClient σ,
      (c.GetServiceById d.id w.remote = ((none, none), r) →
        resourceKongServiceRead c d w
          = ⟨.ret none, ⟨"", d.attrs⟩, ⟨r, w.calls ++ [.GetById .service d.id]⟩⟩)
      ∧ (∀ x err, c.GetServiceById d.id w.remote = ((x, some err), r) →
        resourceKongServiceRead c d w
          = ⟨.ret (some ("could not find kong service: " ++ err)), d,
              ⟨r, w.calls ++ [.GetById .service d.id]⟩⟩))
    ∧ (∀ c : RouteClient σ,
      (c.GetById d.id w.remote = ((none, none), r) →
        resourceKongRouteRead c d w
          = ⟨.ret none, ⟨"", d.attrs⟩, ⟨r, w.calls ++ [.GetById .route d.id]⟩⟩)
      ∧ (∀ x err, c.GetById d.id w.remote = ((x, some err), r) →
        resourceKongRouteRead c d w
          = ⟨.ret (some ("could not find kong route: " ++ err)), d,
              ⟨r, w.calls ++ [.GetById .route d.id]⟩⟩))
    ∧ (∀ (j : JsonCodec V) (c : PluginClient σ V) (cfg : config),
      (c.GetById d.id w.remote = ((none, none), r) →
        resourceKongPluginRead j c cfg d w
          = ⟨.ret none, ⟨"", d.attrs⟩, ⟨r, w.calls ++ [.GetById .plugin d.id]⟩⟩)
      ∧ (∀ x err, c.GetById d.id w.remote = ((x, some err), r) →
        resourceKongPluginRead j c cfg d w
          = ⟨.ret (some ("could not find kong plugin: " ++ err)), d,
              ⟨r, w.calls ++ [.GetById .plugin d.id]⟩⟩)) :=
  ⟨fun c => ⟨resourceKongServiceRead_absent c d w r,
      fun x err => resourceKongServiceRead_error c d w r x err⟩,
   fun c => ⟨resourceKongRouteRead_absent c d w r,
      fun x err => resourceKongRouteRead_error c d w r x err⟩,
   fun j c cfg => ⟨resourceKongPluginRead_absent j c cfg d w r,
      fun x err => resourceKongPluginRead_error j c cfg d w r x err⟩⟩

/-- C9, on a service deleted out of band: the identifier is cleared and the
attributes stay. -/
theorem C9_read_outcomes_witness :
    resourceKongServiceRead
        (scriptedServices (none, none) (none, none) (none, none) (none, none) none)
        ⟨"svc-1", [("name", .str "test"), ("host", .str "test.org")]⟩ World.start
      = ⟨.ret none, ⟨"", [("name", .str "test"), ("host", .str "test.org")]⟩,
          ⟨(), [.GetById .service "svc-1"]⟩⟩ :=
  ((C9_read_outcomes (V := String)
      ⟨"svc-1", [("name", .str "test"), ("host", .str "test.org")]⟩ World.start ()).1
    (scriptedServices (none, none) (none, none) (none, none) (none, none) none)).1 rfl

/-- C10, as the code has it.  For service, route and plugin: once the retry
loop of Create has produced an identifier `I`, Create sets the identifier to
`I` and its result is that of Read on `I`.  Hence, when the client's
get-by-id returns an error, Create returns an error (the identifier stays
`I`); when the client returns no record and no error, Create returns no
error and the identifier is cleared. -/
theorem C10_create_read_back {σ V : Type} (h : Readers) (cfg : config) (d : ResourceData)
    (w w1 : World σ) (I : String) (r : σ) :
    (∀ (c : ServiceClient σ) (fmtV : ServiceRequest → String),
      Retry (serviceCreateAttempt c cfg fmtV (createKongServiceRequestFromResourceData h d))
          cfg.retryTimeout w = (.done I, w1) →
      resourceKongServiceCreate h c cfg fmtV d w = resourceKongServiceRead c (d.SetId I) w1
      ∧ (∀ x err, c.GetServiceById I w1.remote = ((x, some err), r) →
          resourceKongServiceCreate h c cfg fmtV d w
            = ⟨.ret (some ("could not find kong service: " ++ err)), ⟨I, d.attrs⟩,
                ⟨r, w1.calls ++ [.GetById .service I]⟩⟩)
      ∧ (c.GetServiceById I w1.remote = ((none, none), r) →
          resourceKongServiceCreate h c cfg fmtV d w
            = ⟨.ret none, ⟨"", d.attrs⟩, ⟨r, w1.calls ++ [.GetById .service I]⟩⟩))
    ∧ (∀ (c : RouteClient σ) (fmtV : RouteRequest → String),
      Retry (routeCreateAttempt c cfg fmtV (createKongRouteRequestFromResourceData h d))
          cfg.retryTimeout w = (.done I, w1) →
      resourceKongRouteCreate h c cfg fmtV d w = resourceKongRouteRead c (d.SetId I) w1
      ∧ (∀ x err, c.GetById I w1.remote = ((x, some err), r) →
          resourceKongRouteCreate h c cfg fmtV d w
            = ⟨.ret (some ("could not find kong route: " ++ err)), ⟨I, d.attrs⟩,
                ⟨r, w1.calls ++ [.GetById .route I]⟩⟩)
      ∧ (c.GetById I w1.remote = ((none, none), r) →
          resourceKongRouteCreate h c cfg fmtV d w
            = ⟨.ret none, ⟨"", d.attrs⟩, ⟨r, w1.calls ++ [.GetById .route I]⟩⟩))
    ∧ (∀ (j : JsonCodec V) (c : PluginClient σ V) (fmtV : PluginRequest V → String)
        (req : PluginRequest V),
      createKongPluginRequestFromResourceData h j d = some (req, none) →
      Retry (pluginCreateAttempt c cfg fmtV req) cfg.retryTimeout w = (.done I, w1) →
      resourceKongPluginCreate h j c cfg fmtV d w
        = resourceKongPluginRead j c cfg (d.SetId I) w1
      ∧ (∀ x err, c.GetById I w1.remote = ((x, some err), r) →
          resourceKongPluginCreate h j c cfg fmtV d w
            = ⟨.ret (some ("could not find kong plugin: " ++ err)), ⟨I, d.attrs⟩,
                ⟨r, w1.calls ++ [.GetById .plugin I]⟩⟩)
      ∧ (c.GetById I w1.remote = ((none, none), r) →
          resourceKongPluginCreate h j c cfg fmtV d w
            = ⟨.ret none, ⟨"", d.attrs⟩, ⟨r, w1.calls ++ [.GetById .plugin I]⟩⟩)) := by
  refine ⟨?_, ?_, ?_⟩
  · intro c fmtV hrun
    have hcr : resourceKongServiceCreate h c cfg fmtV d w
        = resourceKongServiceRead c (d.SetId I) w1 := by
      simp [resourceKongServiceCreate, hrun]
    refine ⟨hcr, ?_, ?_⟩
    · intro x err hget
      rw [hcr, resourceKongServiceRead_error c (d.SetId I) w1 r x err hget]
      rfl
    · intro hget
      rw [hcr, resourceKongServiceRead_absent c (d.SetId I) w1 r hget]
      rfl
  · intro c fmtV hrun
    have hcr : resourceKongRouteCreate h c cfg fmtV d w
        = resourceKongRouteRead c (d.SetId I) w1 := by
      simp [resourceKongRouteCreate, hrun]
    refine ⟨hcr, ?_, ?_⟩
    · intro x err hget
      rw [hcr, resourceKongRouteRead_error c (d.SetId I) w1 r x err hget]
      rfl
    · intro hget
      rw [hcr, resourceKongRouteRead_absent c (d.SetId I) w1 r hget]
      rfl
  · intro j c fmtV req hreq hrun
    have hcr : resourceKongPluginCreate h j c cfg fmtV d w
        = resourceKongPluginRead j c cfg (d.SetId I) w1 := by
      simp [resourceKongPluginCreate, hreq, hrun]
    refine ⟨hcr, ?_, ?_⟩
    · intro x err hget
      rw [hcr, resourceKongPluginRead_error j c cfg (d.SetId I) w1 r x err hget]
      rfl
    · intro hget
      rw [hcr, resourceKongPluginRead_absent j c cfg (d.SetId I) w1 r hget]
      rfl

/-- C10, on a service created under "svc-9" whose read-back is refused:
Create returns the error of the read-back. -/
theorem C10_create_read_back_witness :
    resourceKongServiceCreate storedReaders
        (scriptedServices (some { Service.empty with Id := some "svc-9" }, none) (none, none)
          (none, some "connection refused") (none, none) none)
        defaultConfig (fun _ => "req")
        ⟨"", [("name", .str "test")]⟩ World.start
      = ⟨.ret (some ("could not find kong service: " ++ "connection refused")),
          ⟨"svc-9", [("name", .str "test")]⟩,
          ⟨(), [.Create .service] ++ [.GetById .service "svc-9"]⟩⟩ :=
  ((C10_create_read_back (V := String) storedReaders defaultConfig
      ⟨"", [("name", .str "test")]⟩ World.start ⟨(), [.Create .service]⟩ "svc-9" ()).1
    (scriptedServices (some { Service.empty with Id := some "svc-9" }, none) (none, none)
      (none, some "connection refused") (none, none) none)
    (fun _ => "req") rfl).2.1 none "connection refused" rfl

/-- C10 fails as stated: a service is created under "svc-9" and the
read-back finds no record; Create returns no error, with the identifier
cleared. -/
theorem C10_absent_read_back_is_not_an_error :
    (resourceKongServiceCreate storedReaders
        (scriptedServices (some { Service.empty with Id := some "svc-9" }, none) (none, none)
          (none, none) (none, none) none)
        defaultConfig (fun _ => "req")
        ⟨"", [("name", .str "test")]⟩ World.start).out = .ret none
    ∧ (resourceKongServiceCreate storedReaders
        (scriptedServices (some { Service.empty with Id := some "svc-9" }, none) (none, none)
          (none, none) (none, none) none)
        defaultConfig (fun _ => "req")
        ⟨"", [("name", .str "test")]⟩ World.start).d.id = ""
    ∧ (resourceKongServiceCreate storedReaders
        (scriptedServices (some { Service.empty with Id := some "svc-9" }, none) (none, none)
          (none, none) (none, none) none)
        defaultConfig (fun _ => "req")
        ⟨"", [("name", .str "test")]⟩ World.start).w.calls
      = [.Create .service, .GetById .service "svc-9"] := by
  refine ⟨by decide, by decide, by decide⟩

/-! ## The retry loop at work -/

/-- With `retry_on_error = true` a refused `Create` is retried: on the
flaky client Create makes two `Create` calls and ends with the identifier of
the second. -/
theorem resourceKongServiceCreate_retries :
    (resourceKongServiceCreate storedReaders flakyServices retryConfig (fun _ => "req")
        ⟨"", [("name", .str "test")]⟩ ⟨0, []⟩).w.calls
      = [.Create .service, .Create .service, .GetById .service "svc-2"]
    ∧ (resourceKongServiceCreate storedReaders flakyServices retryConfig (fun _ => "req")
        ⟨"", [("name", .str "test")]⟩ ⟨0, []⟩).d.id = "svc-2"
    ∧ (resourceKongServiceCreate storedReaders flakyServices defaultConfig (fun _ => "req")
        ⟨"", [("name", .str "test")]⟩ ⟨0, []⟩).w.calls = [.Create .service] := by
  refine ⟨by decide, by decide, by decide⟩

/-! ## C11: validation of the plugin configuration -/

/-- C11. Validation fails fast.  For a plugin desired record whose
`config_json` is set (in the sense of `d.GetOk`) to a text that
`json.Unmarshal` rejects as an object, the request builder returns the
error "failed to unmarshal config_json, err: …"; `resourceKongPluginCreate`
and `resourceKongPluginUpdate` return that error with the world as it was
(no `Create`, no `UpdateById`, no run of the retry function) and with the
resource data, identifier included, as it was, whatever the provider
configuration (`retry_on_error` included). -/
theorem C11_validation_fails_fast {σ V : Type} (h : Readers) (j : JsonCodec V)
    (c : PluginClient σ V) (cfg : config) (fmtV : PluginRequest V → String)
    (d : ResourceData) (w : World σ) (data err : String)
    (hset : d.GetOk "config_json" = some (.str data))
    (hinvalid : j.unmarshal data = .error err) :
    (∃ req, createKongPluginRequestFromResourceData h j d
        = some (req, some ("failed to unmarshal config_json, err: " ++ err)))
    ∧ resourceKongPluginCreate h j c cfg fmtV d w
        = ⟨.ret (some ("failed to unmarshal config_json, err: " ++ err)), d, w⟩
    ∧ resourceKongPluginUpdate h j c cfg d w
        = ⟨.ret (some ("failed to unmarshal config_json, err: " ++ err)), d, w⟩ := by
  have hreq : createKongPluginRequestFromResourceData h j d
      = some ({ Name := h.readStringFromResource d "name"
                ConsumerId := h.readIdPtrFromResource d "consumer_id"
                ServiceId := h.readIdPtrFromResource d "service_id"
                RouteId := h.readIdPtrFromResource d "route_id"
                Config := []
                Enabled := h.readBoolPtrFromResource d "enabled" },
              some ("failed to unmarshal config_json, err: " ++ err)) := by
    simp [createKongPluginRequestFromResourceData, hset, hinvalid]
  refine ⟨⟨_, hreq⟩, ?_, ?_⟩
  · simp [resourceKongPluginCreate, hreq]
  · simp [resourceKongPluginUpdate, hreq]

/-- C11, on a truncated configuration, with `retry_on_error = true`: Create
returns the validation error and makes no call. -/
theorem C11_validation_fails_fast_witness :
    resourceKongPluginCreate storedReaders textCodec
        (scriptedPlugins (none, some "connection refused") ([], none) (none, none)
          (none, none) none)
        retryConfig (fun _ => "req")
        ⟨"", [("name", .str "rate-limiting"), ("config_json", .str "\x7b\"minute\":")]⟩
        World.start
      = ⟨.ret (some ("failed to unmarshal config_json, err: " ++ "unexpected end of JSON input")),
          ⟨"", [("name", .str "rate-limiting"), ("config_json", .str "\x7b\"minute\":")]⟩,
          World.start⟩ :=
  (C11_validation_fails_fast storedReaders textCodec
    (scriptedPlugins (none, some "connection refused") ([], none) (none, none)
      (none, none) none)
    retryConfig (fun _ => "req")
    ⟨"", [("name", .str "rate-limiting"), ("config_json", .str "\x7b\"minute\":")]⟩
    World.start "\x7b\"minute\":" "unexpected end of JSON input" (by decide) rfl).2.1

/-! ## C12, C13 and C14: what Read records for a service -/

theorem Get_setStrIfPresent_ne (d : ResourceData) (key other : String) (p : Option String)
    (hne : key ≠ other) : (setStrIfPresent d key p).Get other = d.Get other := by
  cases p with
  | none => rfl
  | some v => exact Get_Set_ne d key other (.str v) hne

theorem Get_setIntIfPresent_ne (d : ResourceData) (key other : String) (p : Option Int)
    (hne : key ≠ other) : (setIntIfPresent d key p).Get other = d.Get other := by
  cases p with
  | none => rfl
  | some v => exact Get_Set_ne d key other (.int v) hne

theorem Get_setBoolIfPresent_ne (d : ResourceData) (key other : String) (p : Option Bool)
    (hne : key ≠ other) : (setBoolIfPresent d key p).Get other = d.Get other := by
  cases p with
  | none => rfl
  | some v => exact Get_Set_ne d key other (.bool v) hne

theorem Get_setStrsIfPresent_ne (d : ResourceData) (key other : String)
    (p : Option (List (Option String))) (hne : key ≠ other) :
    (setStrsIfPresent d key p).Get other = d.Get other := by
  cases p with
  | none => rfl
  | some v => exact Get_Set_ne d key other (.strs (StringValueSlice v)) hne

theorem Get_setStrIfPresent_same (d : ResourceData) (key : String) (p : Option String) :
    (setStrIfPresent d key p).Get key
      = match p with
        | some v => some (.str v)
        | none => d.Get key := by
  cases p with
  | none => rfl
  | some v => exact Get_Set_same d key (.str v)

theorem Get_setIntIfPresent_same (d : ResourceData) (key : String) (p : Option Int) :
    (setIntIfPresent d key p).Get key
      = match p with
        | some v => some (.int v)
        | none => d.Get key := by
  cases p with
  | none => rfl
  | some v => exact Get_Set_same d key (.int v)

theorem serviceToResourceData_host (d : ResourceData) (service : Service) :
    (serviceToResourceData d service).Get "host"
      = match service.Host with
        | some v => some (.str v)
        | none => d.Get "host" := by
  unfold serviceToResourceData
  simp only []
  rw [Get_setIntIfPresent_ne _ _ _ _ (by decide), Get_setIntIfPresent_ne _ _ _ _ (by decide),
    Get_setIntIfPresent_ne _ _ _ _ (by decide), Get_setIntIfPresent_ne _ _ _ _ (by decide),
    Get_setStrIfPresent_ne _ _ _ _ (by decide), Get_setIntIfPresent_ne _ _ _ _ (by decide),
    Get_setStrIfPresent_same]
  cases service.Host with
  | some v => rfl
  | none =>
    simp only []
    rw [Get_setStrIfPresent_ne _ _ _ _ (by decide), Get_setStrIfPresent_ne _ _ _ _ (by decide)]

theorem serviceToResourceData_protocol (d : ResourceData) (service : Service) :
    (serviceToResourceData d service).Get "protocol"
      = match service.Protocol with
        | some v => some (.str v)
        | none => d.Get "protocol" := by
  unfold serviceToResourceData
  simp only []
  rw [Get_setIntIfPresent_ne _ _ _ _ (by decide), Get_setIntIfPresent_ne _ _ _ _ (by decide),
    Get_setIntIfPresent_ne _ _ _ _ (by decide), Get_setIntIfPresent_ne _ _ _ _ (by decide),
    Get_setStrIfPresent_ne _ _ _ _ (by decide), Get_setIntIfPresent_ne _ _ _ _ (by decide),
    Get_setStrIfPresent_ne _ _ _ _ (by decide), Get_setStrIfPresent_same]
  cases service.Protocol with
  | some v => rfl
  | none =>
    simp only []
    rw [Get_setStrIfPresent_ne _ _ _ _ (by decide)]

theorem serviceToResourceData_retries (d : ResourceData) (service : Service) :
    (serviceToResourceData d service).Get "retries"
      = match service.Retries with
        | some v => some (.int v)
        | none => d.Get "retries" := by
  unfold serviceToResourceData
  simp only []
  rw [Get_setIntIfPresent_ne _ _ _ _ (by decide), Get_setIntIfPresent_ne _ _ _ _ (by decide),
    Get_setIntIfPresent_ne _ _ _ _ (by decide), Get_setIntIfPresent_same]
  cases service.Retries with
  | some v => rfl
  | none =>
    simp only []
    rw [Get_setStrIfPresent_ne _ _ _ _ (by decide), Get_setIntIfPresent_ne _ _ _ _ (by decide),
      Get_setStrIfPresent_ne _ _ _ _ (by decide), Get_setStrIfPresent_ne _ _ _ _ (by decide),
      Get_setStrIfPresent_ne _ _ _ _ (by decide)]

theorem resourceKongServiceRead_found {σ : Type} (c : ServiceClient σ) (d : ResourceData)
    (w : World σ) (r : σ) (service : Service)
    (hget : c.GetServiceById d.id w.remote = ((some service, none), r)) :
    resourceKongServiceRead c d w
      = ⟨.ret none, serviceToResourceData d service,
          ⟨r, w.calls ++ [.GetById .service d.id]⟩⟩ := by
  simp [resourceKongServiceRead, ResourceData.Id, hget, World.step]

theorem resourceKongServiceCreate_adopts {σ : Type} (h : Readers) (c : ServiceClient σ)
    (cfg : config) (fmtV : ServiceRequest → String) (d : ResourceData) (w : World σ)
    (N I e : String) (failed : Option Service) (existing : Service) (r1 r2 : σ)
    (hname : (createKongServiceRequestFromResourceData h d).Name = some N)
    (hupsert : cfg.upsertResources = true)
    (hcreate : c.Create (createKongServiceRequestFromResourceData h d) w.remote
      = ((failed, some e), r1))
    (hconflict : strContains e "unique constraint violation" = true)
    (hlookup : c.GetServiceByName N r1 = ((some existing, none), r2))
    (hid : existing.Id = some I) :
    resourceKongServiceCreate h c cfg fmtV d w
      = resourceKongServiceRead c (d.SetId I)
          ⟨r2, w.calls ++ [.Create .service, .GetByName .service N]⟩ := by
  have hatt : serviceCreateAttempt c cfg fmtV (createKongServiceRequestFromResourceData h d) w
      = (.done I, ⟨r2, w.calls ++ [.Create .service, .GetByName .service N]⟩) := by
    unfold serviceCreateAttempt
    simp [hname, hcreate, hupsert, hconflict, World.step, hlookup, hid]
  have hrun : Retry (serviceCreateAttempt c cfg fmtV
      (createKongServiceRequestFromResourceData h d)) cfg.retryTimeout w
      = (.done I, ⟨r2, w.calls ++ [.Create .service, .GetByName .service N]⟩) := by
    rw [Retry_eq_of_not_retryable _ _ _ (by rw [hatt]; intro e1 he1; cases he1), hatt]
  unfold resourceKongServiceCreate
  simp only [hrun]

/-- C12. Adoption leaves the remote resource unchanged.  On the adoption
path of `resourceKongServiceCreate` (conflict, upsert enabled, the lookup
returning the existing service with identifier `I`), when the read-back
returns that existing service, the calls made are `Create`, the lookup and
`GetServiceById(I)`: nothing is created or updated after the lookup.  The
resource data after Create is the one Read fills from the existing record,
so the host and the protocol recorded are the remote ones, whatever the
desired record asked for. -/
theorem C12_adoption_records_remote_as_is {σ : Type} (h : Readers) (c : ServiceClient σ)
    (cfg : config) (fmtV : ServiceRequest → String) (d : ResourceData) (w : World σ)
    (N I e : String) (failed : Option Service) (existing : Service) (r1 r2 r3 : σ)
    (hname : (createKongServiceRequestFromResourceData h d).Name = some N)
    (hupsert : cfg.upsertResources = true)
    (hcreate : c.Create (createKongServiceRequestFromResourceData h d) w.remote
      = ((failed, some e), r1))
    (hconflict : strContains e "unique constraint violation" = true)
    (hlookup : c.GetServiceByName N r1 = ((some existing, none), r2))
    (hid : existing.Id = some I)
    (hget : c.GetServiceById I r2 = ((some existing, none), r3)) :
    resourceKongServiceCreate h c cfg fmtV d w
      = ⟨.ret none, serviceToResourceData (d.SetId I) existing,
          ⟨r3, w.calls ++ [.Create .service, .GetByName .service N, .GetById .service I]⟩⟩
    ∧ (resourceKongServiceCreate h c cfg fmtV d w).d.id = I
    ∧ (∀ H, existing.Host = some H →
        (resourceKongServiceCreate h c cfg fmtV d w).d.Get "host" = some (.str H))
    ∧ (∀ P, existing.Protocol = some P →
        (resourceKongServiceCreate h c cfg fmtV d w).d.Get "protocol" = some (.str P)) := by
  have hcr : resourceKongServiceCreate h c cfg fmtV d w
      = ⟨.ret none, serviceToResourceData (d.SetId I) existing,
          ⟨r3, w.calls ++ [.Create .service, .GetByName .service N, .GetById .service I]⟩⟩ := by
    have hread := resourceKongServiceRead_found c (d.SetId I)
      (⟨r2, w.calls ++ [Call.Create .service, Call.GetByName .service N]⟩ : World σ)
      r3 existing hget
    rw [resourceKongServiceCreate_adopts h c cfg fmtV d w N I e failed existing r1 r2
      hname hupsert hcreate hconflict hlookup hid, hread]
    simp [ResourceData.SetId]
  refine ⟨hcr, ?_, ?_, ?_⟩
  · rw [hcr]
    exact serviceToResourceData_id _ _
  · intro H hH
    rw [hcr]
    simp only [serviceToResourceData_host, hH]
  · intro P hP
    rw [hcr]
    simp only [serviceToResourceData_protocol, hP]

/-- C12, on the setup of `TestAccKongService_Upsert`: the existing service
has host "foo.org", the desired record asks for "test.org", and the host
recorded after Create is "foo.org". -/
theorem C12_adoption_records_remote_as_is_witness :
    (resourceKongServiceCreate storedReaders
        (scriptedServices (none, some "409: unique constraint violation")
          (some existingService, none) (some existingService, none) (none, none) none)
        upsertConfig (fun _ => "req")
        ⟨"", [("name", .str "test"), ("host", .str "test.org"), ("protocol", .str "http")]⟩
        World.start).d.Get "host" = some (.str "foo.org") :=
  (C12_adoption_records_remote_as_is storedReaders
    (scriptedServices (none, some "409: unique constraint violation")
      (some existingService, none) (some existingService, none) (none, none) none)
    upsertConfig (fun _ => "req")
    ⟨"", [("name", .str "test"), ("host", .str "test.org"), ("protocol", .str "http")]⟩
    World.start "test" "svc-1" "409: unique constraint violation" none existingService
    () () () (by decide) rfl rfl (by decide) rfl rfl rfl).2.2.1 "foo.org" rfl

/-- C13. Upsert does not converge the attributes.  On the second step of
`TestAccKongService_Upsert` (the service "test" exists with host "foo.org"
and protocol "https"; the desired record has host "test.org" and protocol
"http"; upsert is enabled) Create adopts the identifier of the existing
service, issues no `UpdateServiceById`, and records the host "foo.org" and
the protocol "https" of the remote record, not the desired "test.org" and
"http" the test checks for. -/
theorem C13_upsert_records_remote_not_desired :
    (resourceKongServiceCreate storedReaders
        (scriptedServices (none, some "409: unique constraint violation")
          (some existingService, none) (some existingService, none) (none, none) none)
        upsertConfig (fun _ => "req")
        ⟨"", [("name", .str "test"), ("host", .str "test.org"), ("protocol", .str "http")]⟩
        World.start).out = .ret none
    ∧ (resourceKongServiceCreate storedReaders
        (scriptedServices (none, some "409: unique constraint violation")
          (some existingService, none) (some existingService, none) (none, none) none)
        upsertConfig (fun _ => "req")
        ⟨"", [("name", .str "test"), ("host", .str "test.org"), ("protocol", .str "http")]⟩
        World.start).d
      = ⟨"svc-1", [("name", .str "test"), ("host", .str "foo.org"), ("protocol", .str "https")]⟩
    ∧ (resourceKongServiceCreate storedReaders
        (scriptedServices (none, some "409: unique constraint violation")
          (some existingService, none) (some existingService, none) (none, none) none)
        upsertConfig (fun _ => "req")
        ⟨"", [("name", .str "test"), ("host", .str "test.org"), ("protocol", .str "http")]⟩
        World.start).w.calls
      = [.Create .service, .GetByName .service "test", .GetById .service "svc-1"] := by
  refine ⟨by decide, by decide, by decide⟩

/-- C14. Zero is distinct from unset for the integer attributes of a
service.  With `readIntPtrFromResource` as the spec describes it, a desired
record whose `retries` is the explicit value 0 gives a request whose
`Retries` is present and is 0 (neither omitted nor the schema default 5).
A Read that finds a remote service with `Retries = 0` records
`retries = 0`, and one that finds a service whose `Retries` is absent
leaves the recorded `retries` as it was. -/
theorem C14_zero_is_not_unset {σ : Type} (h : Readers) (d : ResourceData)
    (hreader : h.readIntPtrFromResource = readIntPtrFromResource)
    (hzero : d.Get "retries" = some (.int 0)) :
    (createKongServiceRequestFromResourceData h d).Retries = some 0
    ∧ (createKongServiceRequestFromResourceData h d).Retries ≠ none
    ∧ (createKongServiceRequestFromResourceData h d).Retries ≠ some 5
    ∧ (∀ (c : ServiceClient σ) (d0 : ResourceData) (w : World σ) (r : σ) (remote : Service),
        c.GetServiceById d0.id w.remote = ((some remote, none), r) →
        (remote.Retries = some 0 →
          (resourceKongServiceRead c d0 w).d.Get "retries" = some (.int 0))
        ∧ (remote.Retries = none →
          (resourceKongServiceRead c d0 w).d.Get "retries" = d0.Get "retries")) := by
  have hreq : (createKongServiceRequestFromResourceData h d).Retries = some 0 := by
    simp [createKongServiceRequestFromResourceData, hreader, readIntPtrFromResource, hzero]
  refine ⟨hreq, by rw [hreq]; simp, by rw [hreq]; simp, ?_⟩
  intro c d0 w r remote hget
  rw [resourceKongServiceRead_found c d0 w r remote hget]
  constructor
  · intro hr
    simp only [serviceToResourceData_retries, hr]
  · intro hr
    simp only [serviceToResourceData_retries, hr]

/-- C14, on the configuration `testCreateServiceConfigZero` of the
acceptance test (`retries = 0`). -/
theorem C14_zero_is_not_unset_witness :
    (createKongServiceRequestFromResourceData storedReaders
      ⟨"", [("name", .str "test"), ("protocol", .str "http"), ("host", .str "test.org"),
            ("path", .str "/mypath"), ("retries", .int 0), ("connect_timeout", .int 1000),
            ("write_timeout", .int 2000), ("read_timeout", .int 3000)]⟩).Retries = some 0 :=
  (C14_zero_is_not_unset (σ := Unit) storedReaders
    ⟨"", [("name", .str "test"), ("protocol", .str "http"), ("host", .str "test.org"),
          ("path", .str "/mypath"), ("retries", .int 0), ("connect_timeout", .int 1000),
          ("write_timeout", .int 2000), ("read_timeout", .int 3000)]⟩ rfl (by decide)).1

/-! ## C15: Update and Delete -/

/-- C15. Update and Delete surface client errors immediately, for service,
route and plugin (for the plugin, once its request has been built).  Update
makes one `UpdateById` call on the tracked identifier: if it returns an
error `err` (whatever its text, a not-found or a unique-constraint violation
included), Update returns "error updating kong …: err" with the resource
data unchanged and no further call, so neither a retry, nor a lookup, nor a
Read; if it succeeds, Update continues with Read, and the calls are the
`UpdateById` followed by the get-by-id.  Delete makes one `DeleteById` call
on the tracked identifier and returns "could not delete kong …: err" on an
error, and no error otherwise.  Service and route Update and Delete do not
consult the provider flags; the plugin ones behave so for every provider
configuration. -/
theorem C15_update_delete_surface_errors {σ V : Type} (h : Readers) (d : ResourceData)
    (w : World σ) (r : σ) :
    (∀ (c : ServiceClient σ),
      (∀ x err, c.UpdateServiceById d.id (createKongServiceRequestFromResourceData h d) w.remote
          = ((x, some err), r) →
        resourceKongServiceUpdate h c d w
          = ⟨.ret (some ("error updating kong service: " ++ err)), d,
              ⟨r, w.calls ++ [.UpdateById .service d.id]⟩⟩)
      ∧ (∀ x, c.UpdateServiceById d.id (createKongServiceRequestFromResourceData h d) w.remote
          = ((x, none), r) →
        resourceKongServiceUpdate h c d w
          = resourceKongServiceRead c d ⟨r, w.calls ++ [.UpdateById .service d.id]⟩
        ∧ (resourceKongServiceUpdate h c d w).w.calls
          = w.calls ++ [.UpdateById .service d.id, .GetById .service d.id])
      ∧ (∀ err, c.DeleteServiceById d.id w.remote = (some err, r) →
        resourceKongServiceDelete c d w
          = ⟨.ret (some ("could not delete kong service: " ++ err)), d,
              ⟨r, w.calls ++ [.DeleteById .service d.id]⟩⟩)
      ∧ (c.DeleteServiceById d.id w.remote = (none, r) →
        resourceKongServiceDelete c d w
          = ⟨.ret none, d, ⟨r, w.calls ++ [.DeleteById .service d.id]⟩⟩))
    ∧ (∀ (c : RouteClient σ),
      (∀ x err, c.UpdateById d.id (createKongRouteRequestFromResourceData h d) w.remote
          = ((x, some err), r) →
        resourceKongRouteUpdate h c d w
          = ⟨.ret (some ("error updating kong route: " ++ err)), d,
              ⟨r, w.calls ++ [.UpdateById .route d.id]⟩⟩)
      ∧ (∀ x, c.UpdateById d.id (createKongRouteRequestFromResourceData h d) w.remote
          = ((x, none), r) →
        resourceKongRouteUpdate h c d w
          = resourceKongRouteRead c d ⟨r, w.calls ++ [.UpdateById .route d.id]⟩
        ∧ (resourceKongRouteUpdate h c d w).w.calls
          = w.calls ++ [.UpdateById .route d.id, .GetById .route d.id])
      ∧ (∀ err, c.DeleteById d.id w.remote = (some err, r) →
        resourceKongRouteDelete c d w
          = ⟨.ret (some ("could not delete kong route: " ++ err)), d,
              ⟨r, w.calls ++ [.DeleteById .route d.id]⟩⟩)
      ∧ (c.DeleteById d.id w.remote = (none, r) →
        resourceKongRouteDelete c d w
          = ⟨.ret none, d, ⟨r, w.calls ++ [.DeleteById .route d.id]⟩⟩))
    ∧ (∀ (j : JsonCodec V) (c : PluginClient σ V) (cfg : config) (req : PluginRequest V),
      (createKongPluginRequestFromResourceData h j d = some (req, none) →
        (∀ x err, c.UpdateById d.id req w.remote = ((x, some err), r) →
          resourceKongPluginUpdate h j c cfg d w
            = ⟨.ret (some ("error updating kong plugin: " ++ err)), d,
                ⟨r, w.calls ++ [.UpdateById .plugin d.id]⟩⟩)
        ∧ (∀ x, c.UpdateById d.id req w.remote = ((x, none), r) →
          resourceKongPluginUpdate h j c cfg d w
            = resourceKongPluginRead j c cfg d ⟨r, w.calls ++ [.UpdateById .plugin d.id]⟩
          ∧ (resourceKongPluginUpdate h j c cfg d w).w.calls
            = w.calls ++ [.UpdateById .plugin d.id, .GetById .plugin d.id]))
      ∧ (∀ err, c.DeleteById d.id w.remote = (some err, r) →
        resourceKongPluginDelete c d w
          = ⟨.ret (some ("could not delete kong plugin: " ++ err)), d,
              ⟨r, w.calls ++ [.DeleteById .plugin d.id]⟩⟩)
      ∧ (c.DeleteById d.id w.remote = (none, r) →
        resourceKongPluginDelete c d w
          = ⟨.ret none, d, ⟨r, w.calls ++ [.DeleteById .plugin d.id]⟩⟩)) := by
  refine ⟨?_, ?_, ?_⟩
  · intro c
    refine ⟨?_, ?_, ?_, ?_⟩
    · intro x err hu
      simp [resourceKongServiceUpdate, ResourceData.Id, hu, World.step]
    · intro x hu
      have hupd : resourceKongServiceUpdate h c d w
          = resourceKongServiceRead c d ⟨r, w.calls ++ [.UpdateById .service d.id]⟩ := by
        simp [resourceKongServiceUpdate, ResourceData.Id, hu, World.step]
      refine ⟨hupd, ?_⟩
      rw [hupd, resourceKongServiceRead_calls]
      simp
    · intro err hdel
      simp [resourceKongServiceDelete, ResourceData.Id, hdel, World.step]
    · intro hdel
      simp [resourceKongServiceDelete, ResourceData.Id, hdel, World.step]
  · intro c
    refine ⟨?_, ?_, ?_, ?_⟩
    · intro x err hu
      simp [resourceKongRouteUpdate, ResourceData.Id, hu, World.step]
    · intro x hu
      have hupd : resourceKongRouteUpdate h c d w
          = resourceKongRouteRead c d ⟨r, w.calls ++ [.UpdateById .route d.id]⟩ := by
        simp [resourceKongRouteUpdate, ResourceData.Id, hu, World.step]
      refine ⟨hupd, ?_⟩
      rw [hupd, resourceKongRouteRead_calls]
      simp
    · intro err hdel
      simp [resourceKongRouteDelete, ResourceData.Id, hdel, World.step]
    · intro hdel
      simp [resourceKongRouteDelete, ResourceData.Id, hdel, World.step]
  · intro j c cfg req
    refine ⟨?_, ?_, ?_⟩
    · intro hreq
      refine ⟨?_, ?_⟩
      · intro x err hu
        simp [resourceKongPluginUpdate, ResourceData.Id, hreq, hu, World.step]
      · intro x hu
        have hupd : resourceKongPluginUpdate h j c cfg d w
            = resourceKongPluginRead j c cfg d ⟨r, w.calls ++ [.UpdateById .plugin d.id]⟩ := by
          simp [resourceKongPluginUpdate, ResourceData.Id, hreq, hu, World.step]
        refine ⟨hupd, ?_⟩
        rw [hupd, resourceKongPluginRead_calls]
        simp
    · intro err hdel
      simp [resourceKongPluginDelete, ResourceData.Id, hdel, World.step]
    · intro hdel
      simp [resourceKongPluginDelete, ResourceData.Id, hdel, World.step]

/-- C15, on a service whose rename runs into the name of another one:
Update returns the error after the single `UpdateServiceById`. -/
theorem C15_update_delete_surface_errors_witness :
    resourceKongServiceUpdate storedReaders
        (scriptedServices (none, none) (some existingService, none)
          (some existingService, none) (none, some "409: unique constraint violation")
          (some "404: not found"))
        ⟨"svc-7", [("name", .str "test")]⟩ World.start
      = ⟨.ret (some ("error updating kong service: " ++ "409: unique constraint violation")),
          ⟨"svc-7", [("name", .str "test")]⟩, ⟨(), [] ++ [.UpdateById .service "svc-7"]⟩⟩ :=
  ((C15_update_delete_surface_errors (V := String) storedReaders
      ⟨"svc-7", [("name", .str "test")]⟩ World.start ()).1
    (scriptedServices (none, none) (some existingService, none)
      (some existingService, none) (none, some "409: unique constraint violation")
      (some "404: not found"))).1 none "409: unique constraint violation" rfl

/-! ## C16: sources and destinations of a route -/

theorem resourceKongRouteRead_found {σ : Type} (c : RouteClient σ) (d : ResourceData)
    (w : World σ) (r : σ) (route : Route)
    (hget : c.GetById d.id w.remote = ((some route, none), r)) :
    resourceKongRouteRead c d w
      = ⟨.ret none, routeToResourceData d route, ⟨r, w.calls ++ [.GetById .route d.id]⟩⟩ := by
  simp [resourceKongRouteRead, ResourceData.Id, hget, World.step]

theorem routeToResourceData_source_destination (d : ResourceData) (route : Route)
    (a : IpPort) (S D : List IpPort)
    (hS : route.Sources = some (a :: S)) (hD : route.Destinations = some D) :
    (routeToResourceData d route).Get "source" = d.Get "source"
    ∧ (routeToResourceData d route).Get "destination" = d.Get "destination" := by
  unfold routeToResourceData
  simp only [hS, hD, Option.getD_some, setIpPortsDroppingError]
  constructor
  · rw [Get_setStrIfPresent_ne _ _ _ _ (by decide), Get_setStrsIfPresent_ne _ _ _ _ (by decide),
      Get_setIntIfPresent_ne _ _ _ _ (by decide), Get_setBoolIfPresent_ne _ _ _ _ (by decide),
      Get_setBoolIfPresent_ne _ _ _ _ (by decide), Get_setStrsIfPresent_ne _ _ _ _ (by decide),
      Get_setStrsIfPresent_ne _ _ _ _ (by decide), Get_setStrsIfPresent_ne _ _ _ _ (by decide),
      Get_setStrsIfPresent_ne _ _ _ _ (by decide), Get_setStrIfPresent_ne _ _ _ _ (by decide)]
  · rw [Get_setStrIfPresent_ne _ _ _ _ (by decide), Get_setStrsIfPresent_ne _ _ _ _ (by decide),
      Get_setIntIfPresent_ne _ _ _ _ (by decide), Get_setBoolIfPresent_ne _ _ _ _ (by decide),
      Get_setBoolIfPresent_ne _ _ _ _ (by decide), Get_setStrsIfPresent_ne _ _ _ _ (by decide),
      Get_setStrsIfPresent_ne _ _ _ _ (by decide), Get_setStrsIfPresent_ne _ _ _ _ (by decide),
      Get_setStrsIfPresent_ne _ _ _ _ (by decide), Get_setStrIfPresent_ne _ _ _ _ (by decide)]

/-- C16. Route Read, as the code runs it.  For a remote route whose sources
`a :: S` are present and not empty and whose destinations `D` are present,
`resourceKongRouteRead` returns no error and records neither: it hands
`route.Sources` to `d.Set` for "source" and, under the guard
`route.Destinations != nil`, again for "destination"; both calls fail on the
slice of `gokong.IpPort` and their errors are dropped, so the two attributes
stay as they were before the Read, and `D` is handed to no `d.Set` at all. -/
theorem C16_route_read_records_no_ports {σ : Type} (c : RouteClient σ)
    (d : ResourceData) (w : World σ) (r : σ) (route : Route) (a : IpPort)
    (S D : List IpPort)
    (hget : c.GetById d.id w.remote = ((some route, none), r))
    (hS : route.Sources = some (a :: S)) (hD : route.Destinations = some D) :
    (resourceKongRouteRead c d w).out = .ret none
    ∧ (resourceKongRouteRead c d w).d.Get "source" = d.Get "source"
    ∧ (resourceKongRouteRead c d w).d.Get "destination" = d.Get "destination" := by
  rw [resourceKongRouteRead_found c d w r route hget]
  exact ⟨rfl, routeToResourceData_source_destination d route a S D hS hD⟩

/-- C16, at the failing input: a route with the source 10.0.0.1:80 and the
destination 10.0.0.2:443 is read into resource data that has neither
attribute, as on an import; after the Read the destination is still not
recorded. -/
theorem C16_route_read_records_no_ports_witness :
    (resourceKongRouteRead
        (scriptedRoutes (none, none) (none, none)
          (some { Route.empty with
                  Id := some "route-1"
                  Sources := some [⟨some "10.0.0.1", some 80⟩]
                  Destinations := some [⟨some "10.0.0.2", some 443⟩] }, none)
          (none, none) none)
        ⟨"route-1", []⟩ World.start).d.Get "destination" = none
    ∧ (resourceKongRouteRead
        (scriptedRoutes (none, none) (none, none)
          (some { Route.empty with
                  Id := some "route-1"
                  Sources := some [⟨some "10.0.0.1", some 80⟩]
                  Destinations := some [⟨some "10.0.0.2", some 443⟩] }, none)
          (none, none) none)
        ⟨"route-1", []⟩ World.start).d.Get "source" = none := by
  have key := C16_route_read_records_no_ports
    (scriptedRoutes (none, none) (none, none)
      (some { Route.empty with
              Id := some "route-1"
              Sources := some [⟨some "10.0.0.1", some 80⟩]
              Destinations := some [⟨some "10.0.0.2", some 443⟩] }, none)
      (none, none) none)
    ⟨"route-1", []⟩ World.start ()
    { Route.empty with
      Id := some "route-1"
      Sources := some [⟨some "10.0.0.1", some 80⟩]
      Destinations := some [⟨some "10.0.0.2", some 443⟩] }
    ⟨some "10.0.0.1", some 80⟩ [] [⟨some "10.0.0.2", some 443⟩] rfl rfl rfl
  exact ⟨key.2.2, key.2.1⟩

/-- Route Read on concrete inputs.  A destination stored before the Read
stays when the remote sources are not empty; when the remote route has no
sources and has destinations, the empty slice of sources is written under
"destination" and replaces the stored one. -/
theorem resourceKongRouteRead_examples :
    (resourceKongRouteRead
        (scriptedRoutes (none, none) (none, none)
          (some { Route.empty with
                  Id := some "route-1"
                  Sources := some [⟨some "10.0.0.1", some 80⟩]
                  Destinations := some [⟨some "10.0.0.2", some 443⟩] }, none)
          (none, none) none)
        ⟨"route-1", [("destination", .ipPorts [⟨some "10.0.0.2", some 443⟩])]⟩
        World.start).d.Get "destination"
      = some (.ipPorts [⟨some "10.0.0.2", some 443⟩])
    ∧ (resourceKongRouteRead
        (scriptedRoutes (none, none) (none, none)
          (some { Route.empty with
                  Id := some "route-1"
                  Destinations := some [⟨some "10.0.0.2", some 443⟩] }, none)
          (none, none) none)
        ⟨"route-1", [("destination", .ipPorts [⟨some "10.0.0.2", some 443⟩])]⟩
        World.start).d.Get "destination"
      = some (.ipPorts []) := by
  refine ⟨by decide, by decide⟩

/-! ## C17: the bounded retry helper of `utils.go` -/

theorem wrapInt_eq_self (n : Int) (hlo : -9223372036854775808 ≤ n) (hhi : n ≤ maxInt) :
    wrapInt n = n := by
  unfold wrapInt
  unfold maxInt at hhi
  omega

theorem wrapInt_le_maxInt (n : Int) : wrapInt n ≤ maxInt := by
  unfold wrapInt maxInt
  omega

theorem retryFrom_spec {σ : Type} (retries : Int) (f : σ → Option String × σ)
    (hretries : retries < maxInt) :
    ∀ (fuel j : Nat) (attempt : Int) (s : σ) (calls : Nat),
      1 ≤ attempt → (j : Int) = max retries 0 + 2 - attempt → 1 ≤ j → j ≤ fuel →
      ∃ t, t < j
        ∧ retryFrom retries f fuel attempt s calls
            = some ((f (stateAfter f t s)).1, stateAfter f (t + 1) s, calls + t + 1)
        ∧ (∀ i, i < t → (f (stateAfter f i s)).1 ≠ none)
        ∧ ((f (stateAfter f t s)).1 = none ∨ t + 1 = j) := by
  intro fuel
  induction fuel with
  | zero =>
    intro j attempt s calls _ _ hj hfuel
    omega
  | succ fuel ih =>
    intro j attempt s calls hattempt hjeq hj hfuel
    unfold retryFrom
    rcases hfs : f s with ⟨res, s1⟩
    cases res with
    | none =>
      refine ⟨0, by omega, ?_, ?_, ?_⟩
      · simp [stateAfter, hfs]
      · intro i hi
        omega
      · left
        simp [stateAfter, hfs]
    | some err =>
      by_cases hgt : attempt > retries
      · have hj1 : j = 1 := by
          rcases le_total retries 0 with hneg | hpos
          · rw [max_eq_right hneg] at hjeq
            omega
          · rw [max_eq_left hpos] at hjeq
            omega
        refine ⟨0, by omega, ?_, ?_, ?_⟩
        · simp [stateAfter, hfs, hgt]
        · intro i hi
          omega
        · right
          omega
      · have hle : attempt ≤ retries := by omega
        have hmax : max retries 0 = retries := max_eq_left (by omega)
        rw [hmax] at hjeq
        have hwrap : wrapInt (attempt + 1) = attempt + 1 :=
          wrapInt_eq_self _ (by omega) (by omega)
        obtain ⟨t, ht, hrun, hprev, hlast⟩ := ih (j - 1) (attempt + 1) s1 (calls + 1)
          (by omega) (by rw [hmax]; omega) (by omega) (by omega)
        have hs1 : s1 = (f s).2 := by rw [hfs]
        refine ⟨t + 1, by omega, ?_, ?_, ?_⟩
        · simp only [hgt, if_false, hwrap]
          rw [hrun, hs1]
          simp only [stateAfter]
          congr 3
          omega
        · intro i hi
          cases i with
          | zero => simp [stateAfter, hfs]
          | succ i =>
            have := hprev i (by omega)
            rw [hs1] at this
            exact this
        · rcases hlast with hnone | hend
          · left
            rw [hs1] at hnone
            exact hnone
          · right
            omega

theorem retryFrom_maxInt_alwaysFails (fuel : Nat) :
    ∀ (attempt : Int) (calls : Nat), attempt ≤ maxInt →
      retryFrom maxInt alwaysFails fuel attempt () calls = none := by
  induction fuel with
  | zero =>
    intro attempt calls _
    rfl
  | succ fuel ih =>
    intro attempt calls hle
    unfold retryFrom
    have hgt : ¬ attempt > maxInt := by omega
    simp only [alwaysFails, hgt, if_false]
    exact ih _ _ (wrapInt_le_maxInt _)

/-- C17, as the code has it.  For every `retries` below the largest `int`
and every function `f`, `retry(retries, f)` returns (given fuel for
`max(retries, 0) + 1` invocations) after invoking `f` some `t + 1` times
with `t ≤ max(retries, 0)`: the invocations before the last all failed, the
value returned is the result of the last invocation, and the last
invocation either succeeded (so `retry` returns nil right after the first
success) or was number `max(retries, 0) + 1` (so `retry` returns its error).
`retryOnce(f)` returns after at most two invocations of `f`. -/
theorem C17_retry_bounded {σ : Type} (retries : Int) (f : σ → Option String × σ) (s : σ)
    (fuel : Nat)
    (hretries : retries < maxInt)
    (hfuel : (max retries 0).toNat + 1 ≤ fuel) :
    (∃ t, t ≤ (max retries 0).toNat
      ∧ retry fuel retries f s
          = some ((f (stateAfter f t s)).1, stateAfter f (t + 1) s, t + 1)
      ∧ (∀ i, i < t → (f (stateAfter f i s)).1 ≠ none)
      ∧ ((f (stateAfter f t s)).1 = none ∨ t = (max retries 0).toNat))
    ∧ (∀ fuel2, 2 ≤ fuel2 →
        ∃ err s2 n, retryOnce fuel2 f s = some (err, s2, n) ∧ n ≤ 2) := by
  constructor
  · obtain ⟨t, ht, hrun, hprev, hlast⟩ := retryFrom_spec retries f hretries fuel
      ((max retries 0).toNat + 1) 1 s 0 (by omega)
      (by
        have : 0 ≤ max retries 0 := le_max_right _ _
        push_cast
        rw [Int.toNat_of_nonneg this]
        omega)
      (by omega) hfuel
    refine ⟨t, by omega, ?_, hprev, ?_⟩
    · unfold retry
      rw [hrun]
      simp
    · rcases hlast with hnone | hend
      · exact Or.inl hnone
      · exact Or.inr (by omega)
  · intro fuel2 hfuel2
    obtain ⟨t, ht, hrun, _, _⟩ := retryFrom_spec 1 f (by unfold maxInt; omega) fuel2
      2 1 s 0 (by omega) (by simp) (by omega) hfuel2
    refine ⟨(f (stateAfter f t s)).1, stateAfter f (t + 1) s, 0 + t + 1, ?_, by omega⟩
    unfold retryOnce retry
    exact hrun

/-- C17, with `retries = 2` on a function that fails once and then
succeeds. -/
theorem C17_retry_bounded_witness :
    ∃ t, t ≤ (max (2 : Int) 0).toNat
      ∧ retry 3 2 (failsUntil 1) 0
          = some (((failsUntil 1) (stateAfter (failsUntil 1) t 0)).1,
              stateAfter (failsUntil 1) (t + 1) 0, t + 1)
      ∧ (∀ i, i < t → ((failsUntil 1) (stateAfter (failsUntil 1) i 0)).1 ≠ none)
      ∧ (((failsUntil 1) (stateAfter (failsUntil 1) t 0)).1 = none
          ∨ t = (max (2 : Int) 0).toNat) :=
  (C17_retry_bounded 2 (failsUntil 1) 0 3 (by decide) (by decide)).1

/-- The helper on concrete functions: one failure and then a success make
two invocations; with `retries = 2` a function that always fails is invoked
three times; with a negative `retries` it is invoked once; `retryOnce`
invokes it twice. -/
theorem retry_examples :
    retry 3 2 (failsUntil 1) 0 = some (none, 2, 2)
    ∧ retry 3 2 alwaysFails () = some (some "boom", (), 3)
    ∧ retry 3 (-4) alwaysFails () = some (some "boom", (), 1)
    ∧ retryOnce 3 alwaysFails () = some (some "boom", (), 2) := by
  refine ⟨by decide, by decide, by decide, by decide⟩

/-- C17 fails as stated at the largest `int`: the counter `attempt` never
exceeds `retries = 2^63 - 1` (its increment wraps around), so on a function
that always fails `retry` has not returned after any number of
invocations. -/
theorem C17_retry_maxInt_never_returns :
    maxInt = 2 ^ 63 - 1
    ∧ ¬ ∃ fuel : Nat, (retry fuel 9223372036854775807 alwaysFails ()).isSome = true := by
  refine ⟨by decide, ?_⟩
  rintro ⟨fuel, hsome⟩
  have hnone : retry fuel 9223372036854775807 alwaysFails () = none := by
    unfold retry
    exact retryFrom_maxInt_alwaysFails fuel 1 0 (by unfold maxInt; omega)
  rw [hnone] at hsome
  simp at hsome

end Kong
